import Mathlib

/-!
# libpiano, session layer (`src/libpiano/src/main.c`)

A shallow embedding of the request orchestration, the local mutations and the
teardown routines of `main.c`, and the properties of the specification that
are settled on it.

Conventions of the embedding

* A C string is a `String`; one `Char` stands for one byte.  A `char *` member
  of a struct is an `Option String`: `none` is a pointer behind which no string
  can be read (NULL, or a buffer that has been released).
* A `char *` argument is the string it points to, a `String`.  The one
  exception is `newName` of `PianoRenameStation`, a `CharPtr`: that function
  releases a string of the heap before it reads the argument again, so it
  matters whether the argument points into the heap.
* Heap blocks are addressed by `Ptr`; `0` is `NULL`.  Each struct type has its
  own block table in `Memory`; `none` means that no live block of that type is
  at the address.  Reading or writing through such an address, and handing
  `%s` a pointer without a string, is undefined behaviour in C and is a `Fault`
  here.
* The collaborators that are not part of `main.c` (transport, cipher, codec,
  constants of `const.h`) are the fields of `Env` and the `World`.
* Loops walk the heap and take fuel; running out of fuel is `Fault.outOfFuel`.
-/

namespace Piano

/-! ## Data model (`piano.h`)

`piano.h` is not among the sources; each struct has the members that `main.c`
reads, writes or releases. -/

/-- Address of a heap block; `0` is `NULL`. -/
abbrev Ptr := Nat

/-- Modelled from the spec: the status enumeration of `piano.h` (not among the
sources).  `main.c` names `PIANO_RET_ERR` and `PIANO_RET_OK`; every further
remote-reported or decode status is `PIANO_RET_OTHER`. -/
inductive PianoReturn_t where
  | PIANO_RET_ERR
  | PIANO_RET_OK
  | PIANO_RET_OTHER (code : Nat)
  deriving DecidableEq, Repr

/-- Modelled from the spec: the rating enumeration of `piano.h` (not among the
sources): none, loved, banned. -/
inductive PianoSongRating_t where
  | PIANO_RATE_NONE
  | PIANO_RATE_LOVE
  | PIANO_RATE_BAN
  deriving DecidableEq, Repr

/-- Listener identity, `ph->user`. -/
structure PianoUserInfo_t where
  webAuthToken : Option String
  authToken : Option String
  listenerId : Option String
  deriving DecidableEq, Repr

/-- A node of the station list. -/
structure PianoStation_t where
  name : Option String
  id : Option String
  next : Ptr
  deriving DecidableEq, Repr

/-- A node of the playlist, and of the song list of a search result. -/
structure PianoSong_t where
  artist : Option String
  matchingSeed : Option String
  userSeed : Option String
  focusTraitId : Option String
  title : Option String
  audioUrl : Option String
  musicId : Option String
  rating : PianoSongRating_t
  next : Ptr
  deriving DecidableEq, Repr

/-- A node of the artist list of a search result. -/
structure PianoArtist_t where
  name : Option String
  musicId : Option String
  next : Ptr
  deriving DecidableEq, Repr

/-- The caller-owned search result: the heads of its two lists. -/
structure PianoSearchResult_t where
  songs : Ptr
  artists : Ptr
  deriving DecidableEq, Repr

/-- The handle.  `curlHandle` is the opaque transport handle; its effect is the
`World` below, so it has no field here.  `routeId` is a `char[]` member. -/
structure PianoHandle_t where
  routeId : String
  user : PianoUserInfo_t
  stations : Ptr
  playlist : Ptr
  deriving DecidableEq, Repr

/-- The heap: one block table per struct type. -/
structure Memory where
  stations : Ptr → Option PianoStation_t
  songs : Ptr → Option PianoSong_t
  artists : Ptr → Option PianoArtist_t

/-- Undefined behaviour of the C program, and fuel exhaustion:
`invalidPointer p`, a read, write or `free` through `p` where no live block is;
`nullString`, a string read through a `char *` behind which there is none
(NULL, or a buffer that has been released). -/
inductive Fault where
  | invalidPointer (p : Ptr)
  | nullString
  | outOfFuel
  deriving DecidableEq, Repr

/-- What one HTTP POST brings back: the response body (`none`: transport
failure) and the seconds the blocking call took. -/
structure Reply where
  body : Option String
  elapsed : Nat
  deriving DecidableEq, Repr

/-- The world outside the process: the clock read by `time (NULL)`, the replies
the next POSTs will receive, and the POSTs issued so far as (url, body). -/
structure World where
  now : Nat
  replies : List Reply
  posts : List (String × String)
  deriving DecidableEq, Repr

/-- Collaborators and constants that `main.c` uses and does not define. -/
structure Env where
  PIANO_RPC_URL : String
  PIANO_SECURE_RPC_URL : String
  PIANO_URL_BUFFER_SIZE : Nat
  PianoEncryptString : String → String
  PianoXmlEncodeString : String → String
  curl_easy_escape : String → String
  PianoXmlParseSimple : Option String → PianoReturn_t
  PianoXmlParseUserinfo :
    PianoHandle_t → Memory → Option String → PianoHandle_t × Memory × PianoReturn_t
  PianoXmlParseStations :
    PianoHandle_t → Memory → Option String → PianoHandle_t × Memory × PianoReturn_t
  PianoXmlParsePlaylist :
    PianoHandle_t → Memory → Option String → PianoHandle_t × Memory × PianoReturn_t
  PianoXmlParseSearch :
    Memory → Option String → PianoSearchResult_t → Memory × PianoSearchResult_t × PianoReturn_t
  PianoXmlParseCreateStation :
    PianoHandle_t → Memory → Option String → PianoHandle_t × Memory × PianoReturn_t
  PianoXmlParseAddSeed :
    PianoHandle_t → Memory → Option String → Ptr → PianoHandle_t × Memory × PianoReturn_t

/-- Everything a call can read and change. -/
structure State where
  ph : PianoHandle_t
  mem : Memory
  world : World

/-! ## Primitives -/

/-- The string behind a `char *` handed to `%s`. -/
def cstr : Option String → Except Fault String
  | some s => .ok s
  | none => .error .nullString

/-- Where a `char *` argument points: into a buffer of the caller that holds
`s` and is no string member of the session's heap, or at the name buffer of the
station block at `p`.  (No other string of the heap is released while the
argument is in use, so a pointer to one behaves as a buffer of the caller.) -/
inductive CharPtr where
  | buffer (s : String)
  | stationName (p : Ptr)
  deriving DecidableEq, Repr

/-- Writes `s` into a buffer of `size` bytes: at most `size - 1` bytes are
kept (`snprintf (buf, sizeof (buf), ...)`). -/
def snprintf (size : Nat) (s : String) : String :=
  ⟨s.data.take (size - 1)⟩

/-- Reads the station block at `p`. -/
def Memory.station (mem : Memory) (p : Ptr) : Except Fault PianoStation_t :=
  match mem.stations p with
  | some node => .ok node
  | none => .error (.invalidPointer p)

/-- Reads the song block at `p`. -/
def Memory.song (mem : Memory) (p : Ptr) : Except Fault PianoSong_t :=
  match mem.songs p with
  | some node => .ok node
  | none => .error (.invalidPointer p)

/-- Reads the artist block at `p`. -/
def Memory.artist (mem : Memory) (p : Ptr) : Except Fault PianoArtist_t :=
  match mem.artists p with
  | some node => .ok node
  | none => .error (.invalidPointer p)

/-- Reads the string a `char *` argument points to, in the heap as it is at
that moment. -/
def CharPtr.read (mem : Memory) : CharPtr → Except Fault String
  | .buffer s => .ok s
  | .stationName p => do
    let node ← mem.station p
    cstr node.name

/-- Stores into the station table at `p`. -/
def Memory.setStation (mem : Memory) (p : Ptr) (v : Option PianoStation_t) : Memory :=
  { mem with stations := Function.update mem.stations p v }

/-- Stores into the song table at `p`. -/
def Memory.setSong (mem : Memory) (p : Ptr) (v : Option PianoSong_t) : Memory :=
  { mem with songs := Function.update mem.songs p v }

/-- Stores into the artist table at `p`. -/
def Memory.setArtist (mem : Memory) (p : Ptr) (v : Option PianoArtist_t) : Memory :=
  { mem with artists := Function.update mem.artists p v }

/-- Releases the station block at `p` (`free (p)`, `p` a live block). -/
def Memory.freeStation (mem : Memory) (p : Ptr) : Except Fault Memory :=
  match mem.stations p with
  | some _ => .ok (mem.setStation p none)
  | none => .error (.invalidPointer p)

/-- Releases the song block at `p`. -/
def Memory.freeSong (mem : Memory) (p : Ptr) : Except Fault Memory :=
  match mem.songs p with
  | some _ => .ok (mem.setSong p none)
  | none => .error (.invalidPointer p)

/-- Releases the artist block at `p`. -/
def Memory.freeArtist (mem : Memory) (p : Ptr) : Except Fault Memory :=
  match mem.artists p with
  | some _ => .ok (mem.setArtist p none)
  | none => .error (.invalidPointer p)

/-- One `PianoHttpPost`: the request is issued, the clock moves on by the time
the call blocked, and the next reply is consumed (none left: transport
failure). -/
def PianoHttpPost (w : World) (url body : String) : World × Option String :=
  match w.replies with
  | [] => ({ w with posts := w.posts ++ [(url, body)] }, none)
  | r :: rest =>
    ({ now := w.now + r.elapsed, replies := rest, posts := w.posts ++ [(url, body)] }, r.body)

/-! ## Teardown -/

/-- The artist loop of `PianoDestroySearchResult`. -/
def PianoDestroySearchResult.artistLoop : Nat → Memory → Ptr → Except Fault Memory
  | 0, _, _ => .error .outOfFuel
  | fuel + 1, mem, curArtist =>
    if curArtist = 0 then .ok mem
    else do
      let node ← mem.artist curArtist
      -- free (curArtist->name); free (curArtist->musicId);
      let mem := mem.setArtist curArtist (some { node with name := none, musicId := none })
      let lastArtist := curArtist
      let curArtist := node.next
      -- memset (lastArtist, 0, sizeof (*lastArtist)); free (lastArtist);
      let mem := mem.setArtist lastArtist (some { name := none, musicId := none, next := 0 })
      let mem ← mem.freeArtist lastArtist
      PianoDestroySearchResult.artistLoop fuel mem curArtist

/-- The song loop of `PianoDestroySearchResult`.  The zeroed struct is written
with `PIANO_RATE_NONE` as the enumerator of value 0; the block is released
right after. -/
def PianoDestroySearchResult.songLoop : Nat → Memory → Ptr → Except Fault Memory
  | 0, _, _ => .error .outOfFuel
  | fuel + 1, mem, curSong =>
    if curSong = 0 then .ok mem
    else do
      let node ← mem.song curSong
      -- free (curSong->title); free (curSong->artist); free (curSong->musicId);
      let mem := mem.setSong curSong
        (some { node with title := none, artist := none, musicId := none })
      let lastSong := curSong
      let curSong := node.next
      -- memset (lastSong, 0, sizeof (*lastSong)); free (lastSong);
      let mem := mem.setSong lastSong
        (some { artist := none, matchingSeed := none, userSeed := none, focusTraitId := none,
                title := none, audioUrl := none, musicId := none,
                rating := .PIANO_RATE_NONE, next := 0 })
      let mem ← mem.freeSong lastSong
      PianoDestroySearchResult.songLoop fuel mem curSong

/-- `PianoDestroySearchResult`: releases both lists of the search result.  The
struct behind `searchResult` is only read; it is returned as the call leaves
it. -/
def PianoDestroySearchResult (fuel : Nat) (mem : Memory) (searchResult : PianoSearchResult_t) :
    Except Fault (Memory × PianoSearchResult_t) := do
  let mem ← PianoDestroySearchResult.artistLoop fuel mem searchResult.artists
  let mem ← PianoDestroySearchResult.songLoop fuel mem searchResult.songs
  pure (mem, searchResult)

/-- `PianoDestroyStation`: releases the two strings of the node; the node itself
is not released.  `memset (station, 0, sizeof (station))` clears as many
leading bytes of the node as a pointer has, not the whole node; the struct is
declared in `piano.h`, which is not among the sources, and `next` is taken to
lie behind these bytes, so it is kept. -/
def PianoDestroyStation (mem : Memory) (station : Ptr) : Except Fault Memory := do
  let node ← mem.station station
  pure (mem.setStation station (some { node with name := none, id := none }))

/-- The loop of `PianoDestroyStations`. -/
def PianoDestroyStations.loop : Nat → Memory → Ptr → Except Fault Memory
  | 0, _, _ => .error .outOfFuel
  | fuel + 1, mem, curStation =>
    if curStation = 0 then .ok mem
    else do
      let lastStation := curStation
      let node ← mem.station curStation
      let curStation := node.next
      let mem ← PianoDestroyStation mem lastStation
      let mem ← mem.freeStation lastStation
      PianoDestroyStations.loop fuel mem curStation

/-- `PianoDestroyStations`: releases the whole station list and resets the
head. -/
def PianoDestroyStations (fuel : Nat) (s : State) : Except Fault State := do
  let mem ← PianoDestroyStations.loop fuel s.mem s.ph.stations
  pure { s with mem := mem, ph := { s.ph with stations := 0 } }

/-- The loop of `PianoDestroyPlaylist` (zeroed struct as in the song loop
above). -/
def PianoDestroyPlaylist.loop : Nat → Memory → Ptr → Except Fault Memory
  | 0, _, _ => .error .outOfFuel
  | fuel + 1, mem, curSong =>
    if curSong = 0 then .ok mem
    else do
      let node ← mem.song curSong
      -- free of audioUrl, artist, focusTraitId, matchingSeed, musicId, title, userSeed
      let mem := mem.setSong curSong
        (some { node with audioUrl := none, artist := none, focusTraitId := none,
                          matchingSeed := none, musicId := none, title := none,
                          userSeed := none })
      let lastSong := curSong
      let curSong := node.next
      -- memset (lastSong, 0, sizeof (*lastSong)); free (lastSong);
      let mem := mem.setSong lastSong
        (some { artist := none, matchingSeed := none, userSeed := none, focusTraitId := none,
                title := none, audioUrl := none, musicId := none,
                rating := .PIANO_RATE_NONE, next := 0 })
      let mem ← mem.freeSong lastSong
      PianoDestroyPlaylist.loop fuel mem curSong

/-- `PianoDestroyPlaylist`: releases the whole playlist and resets the head. -/
def PianoDestroyPlaylist (fuel : Nat) (s : State) : Except Fault State := do
  let mem ← PianoDestroyPlaylist.loop fuel s.mem s.ph.playlist
  pure { s with mem := mem, ph := { s.ph with playlist := 0 } }

/-! ## Requests

Each `*.request` is the part of the operation that fills `xmlSendBuf` and `url`;
it returns the pair (plaintext XML-RPC document, URL). -/

/-- The two buffers of `PianoGetStations`. -/
def PianoGetStations.request (env : Env) (now : Nat) (ph : PianoHandle_t) :
    Except Fault (String × String) := do
  let authToken ← cstr ph.user.authToken
  let xmlSendBuf := snprintf 10000 ("<?xml version=\"1.0\"?>"
    ++ "<methodCall><methodName>station.getStations</methodName>"
    ++ "<params><param><value><int>" ++ toString now ++ "</int></value></param>"
    ++ "<param><value><string>" ++ authToken ++ "</string></value></param>"
    ++ "</params></methodCall>")
  let listenerId ← cstr ph.user.listenerId
  let url := snprintf env.PIANO_URL_BUFFER_SIZE (env.PIANO_RPC_URL
    ++ "rid=" ++ ph.routeId ++ "&lid=" ++ listenerId ++ "&method=getStations")
  pure (xmlSendBuf, url)

/-- The two buffers of `PianoGetPlaylist`. -/
def PianoGetPlaylist.request (env : Env) (now : Nat) (ph : PianoHandle_t) (stationId : String) :
    Except Fault (String × String) := do
  let authToken ← cstr ph.user.authToken
  let xmlSendBuf := snprintf 10000 ("<?xml version=\"1.0\"?>"
    ++ "<methodCall><methodName>playlist.getFragment</methodName>"
    ++ "<params><param><value><int>" ++ toString now ++ "</int></value></param>"
    ++ "<param><value><string>" ++ authToken ++ "</string></value></param>"
    ++ "<param><value><string>" ++ stationId ++ "</string></value></param>"
    ++ "<param><value><string>15941546</string></value></param>"
    ++ "<param><value><string>181840822</string></value></param>"
    ++ "<param><value><string></string></value></param>"
    ++ "<param><value><string></string></value></param>"
    ++ "<param><value><string>aacplus</string></value></param>"
    ++ "</params></methodCall>")
  let listenerId ← cstr ph.user.listenerId
  let url := snprintf env.PIANO_URL_BUFFER_SIZE (env.PIANO_RPC_URL
    ++ "rid=" ++ ph.routeId ++ "&lid=" ++ listenerId ++ "&method=getFragment&arg1=" ++ stationId
    ++ "&arg2=15941546"
    ++ "&arg3=181840822&arg4=&arg5=&arg6=aacplus")
  pure (xmlSendBuf, url)

/-- The two buffers of `PianoRateTrack`. -/
def PianoRateTrack.request (env : Env) (now : Nat) (ph : PianoHandle_t)
    (station : PianoStation_t) (song : PianoSong_t) (rating : PianoSongRating_t) :
    Except Fault (String × String) := do
  let authToken ← cstr ph.user.authToken
  let stationId ← cstr station.id
  let musicId ← cstr song.musicId
  let matchingSeed ← cstr song.matchingSeed
  let userSeed ← cstr song.userSeed
  -- (song->focusTraitId == NULL) ? "" : song->focusTraitId
  let focusTraitId := match song.focusTraitId with
    | none => ""
    | some f => f
  let xmlSendBuf := snprintf 10000 ("<?xml version=\"1.0\"?>"
    ++ "<methodCall><methodName>station.addFeedback</methodName>"
    ++ "<params><param><value><int>" ++ toString now ++ "</int></value></param>"
    ++ "<param><value><string>" ++ authToken ++ "</string></value></param>"
    ++ "<param><value><string>" ++ stationId ++ "</string></value></param>"
    ++ "<param><value><string>" ++ musicId ++ "</string></value></param>"
    ++ "<param><value><string>" ++ matchingSeed ++ "</string></value></param>"
    ++ "<param><value><string>" ++ userSeed ++ "</string></value></param>"
    ++ "<param><value><string>" ++ focusTraitId ++ "</string></value></param>"
    ++ "<param><value><boolean>"
    ++ toString (if rating = .PIANO_RATE_LOVE then 1 else 0) ++ "</boolean></value></param>"
    ++ "<param><value><boolean>0</boolean></value></param>"
    ++ "</params></methodCall>")
  let listenerId ← cstr ph.user.listenerId
  let url := snprintf env.PIANO_URL_BUFFER_SIZE (env.PIANO_RPC_URL
    ++ "rid=" ++ ph.routeId ++ "&lid=" ++ listenerId ++ "&method=addFeedback&arg1=" ++ stationId
    ++ "&arg2=" ++ musicId
    ++ "&arg3=" ++ matchingSeed ++ "&arg4=" ++ userSeed ++ "&arg5=" ++ focusTraitId
    ++ "&arg6=" ++ (if rating = .PIANO_RATE_LOVE then "true" else "false") ++ "&arg7=false")
  pure (xmlSendBuf, url)

/-- The two buffers of `PianoRenameStation`. -/
def PianoRenameStation.request (env : Env) (now : Nat) (ph : PianoHandle_t)
    (station : PianoStation_t) (newName : String) : Except Fault (String × String) := do
  let xmlencodedNewName := env.PianoXmlEncodeString newName
  let authToken ← cstr ph.user.authToken
  let stationId ← cstr station.id
  let xmlSendBuf := snprintf 10000 ("<?xml version=\"1.0\"?>"
    ++ "<methodCall><methodName>station.setStationName</methodName>"
    ++ "<params><param><value><int>" ++ toString now ++ "</int></value></param>"
    ++ "<param><value><string>" ++ authToken ++ "</string></value></param>"
    ++ "<param><value><string>" ++ stationId ++ "</string></value></param>"
    ++ "<param><value><string>" ++ xmlencodedNewName ++ "</string></value></param>"
    ++ "</params></methodCall>")
  let urlencodedNewName := env.curl_easy_escape newName
  let listenerId ← cstr ph.user.listenerId
  let url := snprintf env.PIANO_URL_BUFFER_SIZE (env.PIANO_RPC_URL
    ++ "rid=" ++ ph.routeId ++ "&lid=" ++ listenerId
    ++ "&method=setStationName&arg1=" ++ stationId ++ "&arg2=" ++ urlencodedNewName)
  pure (xmlSendBuf, url)

/-- The two buffers of `PianoDeleteStation`. -/
def PianoDeleteStation.request (env : Env) (now : Nat) (ph : PianoHandle_t)
    (station : PianoStation_t) : Except Fault (String × String) := do
  let authToken ← cstr ph.user.authToken
  let stationId ← cstr station.id
  let xmlSendBuf := snprintf 10000 ("<?xml version=\"1.0\"?>"
    ++ "<methodCall><methodName>station.removeStation</methodName>"
    ++ "<params><param><value><int>" ++ toString now ++ "</int></value></param>"
    ++ "<param><value><string>" ++ authToken ++ "</string></value></param>"
    ++ "<param><value><string>" ++ stationId ++ "</string></value></param>"
    ++ "</params></methodCall>")
  let listenerId ← cstr ph.user.listenerId
  let url := snprintf env.PIANO_URL_BUFFER_SIZE (env.PIANO_RPC_URL
    ++ "rid=" ++ ph.routeId ++ "&lid=" ++ listenerId
    ++ "&method=removeStation&arg1=" ++ stationId)
  pure (xmlSendBuf, url)

/-- The two buffers of `PianoSearchMusic`. -/
def PianoSearchMusic.request (env : Env) (now : Nat) (ph : PianoHandle_t)
    (searchStr : String) : Except Fault (String × String) := do
  let xmlencodedSearchStr := env.PianoXmlEncodeString searchStr
  let authToken ← cstr ph.user.authToken
  let xmlSendBuf := snprintf 10000 ("<?xml version=\"1.0\"?>"
    ++ "<methodCall><methodName>music.search</methodName>"
    ++ "<params><param><value><int>" ++ toString now ++ "</int></value></param>"
    ++ "<param><value><string>" ++ authToken ++ "</string></value></param>"
    ++ "<param><value><string>" ++ xmlencodedSearchStr ++ "</string></value></param>"
    ++ "</params></methodCall>")
  let urlencodedSearchStr := env.curl_easy_escape searchStr
  let listenerId ← cstr ph.user.listenerId
  let url := snprintf env.PIANO_URL_BUFFER_SIZE (env.PIANO_RPC_URL
    ++ "rid=" ++ ph.routeId ++ "&lid=" ++ listenerId ++ "&"
    ++ "method=search&arg1=" ++ urlencodedSearchStr)
  pure (xmlSendBuf, url)

/-- The two buffers of `PianoCreateStation`. -/
def PianoCreateStation.request (env : Env) (now : Nat) (ph : PianoHandle_t)
    (musicId : String) : Except Fault (String × String) := do
  let authToken ← cstr ph.user.authToken
  let xmlSendBuf := snprintf 10000 ("<?xml version=\"1.0\"?>"
    ++ "<methodCall><methodName>station.createStation</methodName>"
    ++ "<params><param><value><int>" ++ toString now ++ "</int></value></param>"
    ++ "<param><value><string>" ++ authToken ++ "</string></value></param>"
    ++ "<param><value><string>mi" ++ musicId ++ "</string></value></param>"
    ++ "</params></methodCall>")
  let listenerId ← cstr ph.user.listenerId
  let url := snprintf env.PIANO_URL_BUFFER_SIZE (env.PIANO_RPC_URL
    ++ "rid=" ++ ph.routeId ++ "&lid=" ++ listenerId
    ++ "&method=createStation&arg1=mi" ++ musicId)
  pure (xmlSendBuf, url)

/-- The two buffers of `PianoStationAddMusic`. -/
def PianoStationAddMusic.request (env : Env) (now : Nat) (ph : PianoHandle_t)
    (station : PianoStation_t) (musicId : String) : Except Fault (String × String) := do
  let authToken ← cstr ph.user.authToken
  let stationId ← cstr station.id
  let xmlSendBuf := snprintf 10000 ("<?xml version=\"1.0\"?>"
    ++ "<methodCall><methodName>station.addSeed</methodName><params>"
    ++ "<param><value><int>" ++ toString now ++ "</int></value></param>"
    ++ "<param><value><string>" ++ authToken ++ "</string></value></param>"
    ++ "<param><value><string>" ++ stationId ++ "</string></value></param>"
    ++ "<param><value><string>" ++ musicId ++ "</string></value></param>"
    ++ "</params></methodCall>")
  let listenerId ← cstr ph.user.listenerId
  let url := snprintf env.PIANO_URL_BUFFER_SIZE (env.PIANO_RPC_URL
    ++ "rid=" ++ ph.routeId ++ "&lid=" ++ listenerId
    ++ "&method=addSeed&arg1=" ++ stationId ++ "&arg2=" ++ musicId)
  pure (xmlSendBuf, url)

/-! ## Operations -/

/-- `PianoConnect`: the sync POST, whose reply is dropped, then the
authentication POST, whose reply `PianoXmlParseUserinfo` parses into the
handle. -/
def PianoConnect (env : Env) (s : State) (user password : String) : State × PianoReturn_t :=
  let requestStr := env.PianoEncryptString ("<?xml version=\"1.0\"?>"
    ++ "<methodCall><methodName>misc.sync</methodName>"
    ++ "<params></params></methodCall>")
  -- sync
  let url := snprintf env.PIANO_URL_BUFFER_SIZE (env.PIANO_RPC_URL
    ++ "rid=" ++ s.ph.routeId ++ "&method=sync")
  let world := (PianoHttpPost s.world url requestStr).1
  -- authenticate
  let requestStrPlain := snprintf 10000 ("<?xml version=\"1.0\"?><methodCall>"
    ++ "<methodName>listener.authenticateListener</methodName>"
    ++ "<params><param><value><int>" ++ toString world.now ++ "</int></value></param>"
    ++ "<param><value><string>" ++ user ++ "</string></value></param>"
    ++ "<param><value><string>" ++ password ++ "</string></value></param>"
    ++ "</params></methodCall>")
  let requestStr := env.PianoEncryptString requestStrPlain
  let url := snprintf env.PIANO_URL_BUFFER_SIZE (env.PIANO_SECURE_RPC_URL
    ++ "rid=" ++ s.ph.routeId
    ++ "&method=authenticateListener")
  let posted := PianoHttpPost world url requestStr
  let parsed := env.PianoXmlParseUserinfo s.ph s.mem posted.2
  ({ ph := parsed.1, mem := parsed.2.1, world := posted.1 }, parsed.2.2)

/-- `PianoGetStations`. -/
def PianoGetStations (env : Env) (s : State) : Except Fault (State × PianoReturn_t) := do
  let (xmlSendBuf, url) ← PianoGetStations.request env s.world.now s.ph
  let requestStr := env.PianoEncryptString xmlSendBuf
  let posted := PianoHttpPost s.world url requestStr
  let parsed := env.PianoXmlParseStations s.ph s.mem posted.2
  pure ({ ph := parsed.1, mem := parsed.2.1, world := posted.1 }, parsed.2.2)

/-- `PianoGetPlaylist`. -/
def PianoGetPlaylist (env : Env) (s : State) (stationId : String) :
    Except Fault (State × PianoReturn_t) := do
  let (xmlSendBuf, url) ← PianoGetPlaylist.request env s.world.now s.ph stationId
  let requestStr := env.PianoEncryptString xmlSendBuf
  let posted := PianoHttpPost s.world url requestStr
  let parsed := env.PianoXmlParsePlaylist s.ph s.mem posted.2
  pure ({ ph := parsed.1, mem := parsed.2.1, world := posted.1 }, parsed.2.2)

/-- `PianoRateTrack`: the rating is stored in the song block only under
`ret == PIANO_RET_OK`. -/
def PianoRateTrack (env : Env) (s : State) (station song : Ptr) (rating : PianoSongRating_t) :
    Except Fault (State × PianoReturn_t) := do
  let st ← s.mem.station station
  let sg ← s.mem.song song
  let (xmlSendBuf, url) ← PianoRateTrack.request env s.world.now s.ph st sg rating
  let requestStr := env.PianoEncryptString xmlSendBuf
  let posted := PianoHttpPost s.world url requestStr
  let ret := env.PianoXmlParseSimple posted.2
  if ret = .PIANO_RET_OK then
    -- song->rating = rating;
    pure ({ s with mem := s.mem.setSong song (some { sg with rating := rating }),
                   world := posted.1 }, ret)
  else
    pure ({ s with world := posted.1 }, ret)

/-- `PianoRenameStation`: the name is replaced by a copy of `newName` only
under `ret == PIANO_RET_OK`.  `newName` is read three times: by
`PianoXmlEncodeString` and by `curl_easy_escape` before the POST, and by
`strdup` after `free (station->name)`; when it points at the name buffer of
this very station, the last read goes to a released buffer. -/
def PianoRenameStation (env : Env) (s : State) (station : Ptr) (newName : CharPtr) :
    Except Fault (State × PianoReturn_t) := do
  let st ← s.mem.station station
  -- PianoXmlEncodeString (newName), curl_easy_escape (ph->curlHandle, newName, 0)
  let name ← newName.read s.mem
  let (xmlSendBuf, url) ← PianoRenameStation.request env s.world.now s.ph st name
  let requestStr := env.PianoEncryptString xmlSendBuf
  let posted := PianoHttpPost s.world url requestStr
  let ret := env.PianoXmlParseSimple posted.2
  if ret = .PIANO_RET_OK then do
    -- free (station->name);
    let mem := s.mem.setStation station (some { st with name := none })
    -- station->name = strdup (newName);
    let copy ← newName.read mem
    pure ({ s with mem := mem.setStation station (some { st with name := some copy }),
                   world := posted.1 }, ret)
  else
    pure ({ s with world := posted.1 }, ret)

/-- The loop of `PianoDeleteStation` over the local station list (the
`printf` of the matching branch writes to the terminal and is left out). -/
def PianoDeleteStation.loop (station : Ptr) :
    Nat → PianoHandle_t → Memory → Ptr → Ptr → Except Fault (PianoHandle_t × Memory)
  | 0, _, _, _, _ => .error .outOfFuel
  | fuel + 1, ph, mem, curStation, lastStation =>
    if curStation = 0 then .ok (ph, mem)
    else do
      let (ph, mem) ←
        if curStation = station then do
          let cur ← mem.station curStation
          let (ph, mem) ←
            if lastStation ≠ 0 then do
              -- lastStation->next = curStation->next;
              let last ← mem.station lastStation
              pure (ph, mem.setStation lastStation (some { last with next := cur.next }))
            else
              -- first station in list: ph->stations = curStation->next;
              pure ({ ph with stations := cur.next }, mem)
          let mem ← PianoDestroyStation mem curStation
          let mem ← mem.freeStation curStation
          pure (ph, mem)
        else
          pure (ph, mem)
      -- lastStation = curStation; curStation = curStation->next;
      let cur ← mem.station curStation
      PianoDeleteStation.loop station fuel ph mem cur.next curStation

/-- `PianoDeleteStation`: the local list is walked only under
`ret == PIANO_RET_OK`. -/
def PianoDeleteStation (env : Env) (fuel : Nat) (s : State) (station : Ptr) :
    Except Fault (State × PianoReturn_t) := do
  let st ← s.mem.station station
  let (xmlSendBuf, url) ← PianoDeleteStation.request env s.world.now s.ph st
  let requestStr := env.PianoEncryptString xmlSendBuf
  let posted := PianoHttpPost s.world url requestStr
  let ret := env.PianoXmlParseSimple posted.2
  if ret = .PIANO_RET_OK then do
    let (ph, mem) ← PianoDeleteStation.loop station fuel s.ph s.mem s.ph.stations 0
    pure ({ ph := ph, mem := mem, world := posted.1 }, ret)
  else
    pure ({ s with world := posted.1 }, ret)

/-- `PianoSearchMusic`. -/
def PianoSearchMusic (env : Env) (s : State) (searchStr : String)
    (searchResult : PianoSearchResult_t) :
    Except Fault (State × PianoSearchResult_t × PianoReturn_t) := do
  let (xmlSendBuf, url) ← PianoSearchMusic.request env s.world.now s.ph searchStr
  let requestStr := env.PianoEncryptString xmlSendBuf
  let posted := PianoHttpPost s.world url requestStr
  let parsed := env.PianoXmlParseSearch s.mem posted.2 searchResult
  pure ({ s with mem := parsed.1, world := posted.1 }, parsed.2.1, parsed.2.2)

/-- `PianoCreateStation`. -/
def PianoCreateStation (env : Env) (s : State) (musicId : String) :
    Except Fault (State × PianoReturn_t) := do
  let (xmlSendBuf, url) ← PianoCreateStation.request env s.world.now s.ph musicId
  let requestStr := env.PianoEncryptString xmlSendBuf
  let posted := PianoHttpPost s.world url requestStr
  let parsed := env.PianoXmlParseCreateStation s.ph s.mem posted.2
  pure ({ ph := parsed.1, mem := parsed.2.1, world := posted.1 }, parsed.2.2)

/-- `PianoStationAddMusic`. -/
def PianoStationAddMusic (env : Env) (s : State) (station : Ptr) (musicId : String) :
    Except Fault (State × PianoReturn_t) := do
  let st ← s.mem.station station
  let (xmlSendBuf, url) ← PianoStationAddMusic.request env s.world.now s.ph st musicId
  let requestStr := env.PianoEncryptString xmlSendBuf
  let posted := PianoHttpPost s.world url requestStr
  let parsed := env.PianoXmlParseAddSeed s.ph s.mem posted.2 station
  pure ({ ph := parsed.1, mem := parsed.2.1, world := posted.1 }, parsed.2.2)

/-! ## Views of the linked lists -/

/-- The station chain that starts at `p` is exactly `l`: the addresses and
contents of its nodes, in order, ending in `NULL`. -/
def IsStationList (mem : Memory) : Ptr → List (Ptr × PianoStation_t) → Prop
  | p, [] => p = 0
  | p, (a, node) :: rest =>
    p = a ∧ a ≠ 0 ∧ mem.stations a = some node ∧ IsStationList mem node.next rest

/-- The song chain that starts at `p` is exactly `l`. -/
def IsSongList (mem : Memory) : Ptr → List (Ptr × PianoSong_t) → Prop
  | p, [] => p = 0
  | p, (a, node) :: rest =>
    p = a ∧ a ≠ 0 ∧ mem.songs a = some node ∧ IsSongList mem node.next rest

/-- Decision procedure for `IsStationList`. -/
def IsStationList.decide (mem : Memory) :
    (p : Ptr) → (l : List (Ptr × PianoStation_t)) → Decidable (IsStationList mem p l)
  | p, [] => inferInstanceAs (Decidable (p = 0))
  | p, (a, node) :: rest =>
    have := IsStationList.decide mem node.next rest
    inferInstanceAs (Decidable (p = a ∧ a ≠ 0 ∧ mem.stations a = some node ∧
      IsStationList mem node.next rest))

instance (mem : Memory) (p : Ptr) (l : List (Ptr × PianoStation_t)) :
    Decidable (IsStationList mem p l) :=
  IsStationList.decide mem p l

/-- Decision procedure for `IsSongList`. -/
def IsSongList.decide (mem : Memory) :
    (p : Ptr) → (l : List (Ptr × PianoSong_t)) → Decidable (IsSongList mem p l)
  | p, [] => inferInstanceAs (Decidable (p = 0))
  | p, (a, node) :: rest =>
    have := IsSongList.decide mem node.next rest
    inferInstanceAs (Decidable (p = a ∧ a ≠ 0 ∧ mem.songs a = some node ∧
      IsSongList mem node.next rest))

instance (mem : Memory) (p : Ptr) (l : List (Ptr × PianoSong_t)) :
    Decidable (IsSongList mem p l) :=
  IsSongList.decide mem p l

/-- The list `l` with the rating of the song at address `song` set to
`rating`; nothing else changes. -/
def withRating (song : Ptr) (rating : PianoSongRating_t) (l : List (Ptr × PianoSong_t)) :
    List (Ptr × PianoSong_t) :=
  l.map fun e => if e.1 = song then (e.1, { e.2 with rating := rating }) else e

/-- What `xml_escape` puts for one byte. -/
def xmlEntity (c : Char) : List Char :=
  if c = '&' then "&amp;".data
  else if c = '<' then "&lt;".data
  else if c = '>' then "&gt;".data
  else if c = '\'' then "&apos;".data
  else if c = '"' then "&quot;".data
  else [c]

/-- Modelled from the spec: `xml_escape` of the Protocol Codec
(`PianoXmlEncodeString`; `xml.c` is not among the sources).  The five
characters that have a predefined XML entity are replaced by it. -/
def xmlEscape (s : String) : String :=
  ⟨s.data.foldr (fun c acc => xmlEntity c ++ acc) []⟩

/-- One hexadecimal digit, upper case. -/
def hexDigit (n : Nat) : Char :=
  if n < 10 then Char.ofNat (48 + n) else Char.ofNat (55 + n)

/-- What `curl_easy_escape` puts for one byte. -/
def urlEscapeByte (c : Char) : List Char :=
  if c.isAlphanum || c = '-' || c = '.' || c = '_' || c = '~' then [c]
  else ['%', hexDigit (c.toNat / 16 % 16), hexDigit (c.toNat % 16)]

/-- URL escaping as libcurl's `curl_easy_escape` does it: letters, digits and
`-`, `.`, `_`, `~` are kept, every other byte becomes `%XX`. -/
def urlEscape (s : String) : String :=
  ⟨s.data.foldr (fun c acc => urlEscapeByte c ++ acc) []⟩

/-- The status a fixture reply stands for: the body `OK` is success. -/
def fixtureStatus (retStr : Option String) : PianoReturn_t :=
  if retStr = some "OK" then .PIANO_RET_OK else .PIANO_RET_ERR

/-- A fixture environment: an identity cipher, the escapes above, and parsers
that read the status off the reply; `PianoXmlParseUserinfo` stores the identity
on success, the other parsers leave the session as it is. -/
def fixtureEnv : Env where
  PIANO_RPC_URL := "http://fixture/xmlrpc?"
  PIANO_SECURE_RPC_URL := "https://fixture/xmlrpc?"
  PIANO_URL_BUFFER_SIZE := 1024
  PianoEncryptString := fun s => s
  PianoXmlEncodeString := xmlEscape
  curl_easy_escape := urlEscape
  PianoXmlParseSimple := fixtureStatus
  PianoXmlParseUserinfo := fun ph mem retStr =>
    if retStr = some "OK" then
      ({ ph with user := { webAuthToken := some "W", authToken := some "A",
                           listenerId := some "L" } }, mem, .PIANO_RET_OK)
    else (ph, mem, .PIANO_RET_ERR)
  PianoXmlParseStations := fun ph mem retStr => (ph, mem, fixtureStatus retStr)
  PianoXmlParsePlaylist := fun ph mem retStr => (ph, mem, fixtureStatus retStr)
  PianoXmlParseSearch := fun mem retStr searchResult => (mem, searchResult, fixtureStatus retStr)
  PianoXmlParseCreateStation := fun ph mem retStr => (ph, mem, fixtureStatus retStr)
  PianoXmlParseAddSeed := fun ph mem retStr _ => (ph, mem, fixtureStatus retStr)

/-- Station node of the fixture. -/
def fixtureStation (name id : String) (next : Ptr) : PianoStation_t :=
  { name := some name, id := some id, next := next }

/-- Song node of the fixture. -/
def fixtureSong (title musicId : String) (rating : PianoSongRating_t) (next : Ptr) :
    PianoSong_t :=
  { artist := some "Artist", matchingSeed := some "M", userSeed := some "U",
    focusTraitId := none, title := some title, audioUrl := some "http://audio",
    musicId := some musicId, rating := rating, next := next }

/-- The heap of the fixture: the station list 1, 2, 3 and a station block 7
outside it that carries the id of station 2; the playlist 11, 12; the songs 21
and the artists 31, 32 of a search result. -/
def fixtureMemory : Memory where
  stations := fun p =>
    if p = 1 then some (fixtureStation "Rock" "S1" 2)
    else if p = 2 then some (fixtureStation "Jazz" "S2" 3)
    else if p = 3 then some (fixtureStation "Folk" "S3" 0)
    else if p = 7 then some (fixtureStation "Copy" "S2" 0)
    else none
  songs := fun p =>
    if p = 11 then some (fixtureSong "First" "T1" .PIANO_RATE_LOVE 12)
    else if p = 12 then some (fixtureSong "Second" "T2" .PIANO_RATE_NONE 0)
    else if p = 21 then some (fixtureSong "Found" "T9" .PIANO_RATE_NONE 0)
    else none
  artists := fun p =>
    if p = 31 then some { name := some "Band", musicId := some "R1", next := 32 }
    else if p = 32 then some { name := some "Duo", musicId := some "R2", next := 0 }
    else none

/-- The handle of the fixture, after a successful connect. -/
def fixtureHandle : PianoHandle_t where
  routeId := "4774609P"
  user := { webAuthToken := some "W", authToken := some "A", listenerId := some "L" }
  stations := 1
  playlist := 11

/-- The fixture session; `replies` are what the server will answer. -/
def fixtureState (replies : List Reply) : State where
  ph := fixtureHandle
  mem := fixtureMemory
  world := { now := 1222222222, replies := replies, posts := [] }

/-- The search result of the fixture. -/
def fixtureSearchResult : PianoSearchResult_t where
  songs := 21
  artists := 31

/-! ## The wire shape in the words of the specification

These definitions follow the specification, not `main.c`: a request is a method
name and an ordered parameter list, rendered once as an XML-RPC document and
once as the query string `rid`, `lid`, `method`, `arg1` ... `argN`. -/

/-- A typed XML-RPC parameter. -/
inductive XmlRpcValue where
  | int (n : Nat)
  | string (s : String)
  | boolean (b : Bool)
  deriving DecidableEq, Repr

/-- One `<param>` element. -/
def XmlRpcValue.encode : XmlRpcValue → String
  | .int n => "<param><value><int>" ++ toString n ++ "</int></value></param>"
  | .string s => "<param><value><string>" ++ s ++ "</string></value></param>"
  | .boolean b =>
    "<param><value><boolean>" ++ (if b then "1" else "0") ++ "</boolean></value></param>"

/-- The specification's `encode_request (method_name, ordered_params)`. -/
def encode_request (method : String) (params : List XmlRpcValue) : String :=
  "<?xml version=\"1.0\"?><methodCall><methodName>" ++ method ++ "</methodName><params>"
    ++ String.join (params.map XmlRpcValue.encode) ++ "</params></methodCall>"

/-- The query arguments numbered from `i`: `&arg<i>=...&arg<i+1>=...`. -/
def query_args : Nat → List String → String
  | _, [] => ""
  | i, a :: rest => "&arg" ++ toString i ++ "=" ++ a ++ query_args (i + 1) rest

/-- The specification's URL `<endpoint>?rid=<route_id>&lid=<listener_id>
&method=<name>[&arg1=...&argN=...]`; `endpoint` ends in the question mark. -/
def request_url (endpoint routeId listenerId method : String) (args : List String) : String :=
  endpoint ++ "rid=" ++ routeId ++ "&lid=" ++ listenerId ++ "&method=" ++ method
    ++ query_args 1 args

/-- The logical value of an operation-specific parameter. -/
inductive Value where
  | str (s : String)
  | bool (b : Bool)
  deriving DecidableEq, Repr

/-- One operation-specific parameter: its logical value, and whether a string
value is sent escaped (XML-escaped in the body, URL-escaped in the query) or
as it is. -/
structure Field where
  value : Value
  escaped : Bool
  deriving DecidableEq, Repr

/-- The field as the XML-RPC parameter of the body. -/
def Field.xml (env : Env) (f : Field) : XmlRpcValue :=
  match f.value with
  | .str s => .string (if f.escaped then env.PianoXmlEncodeString s else s)
  | .bool b => .boolean b

/-- The field as the plaintext argument of the query string. -/
def Field.url (env : Env) (f : Field) : String :=
  match f.value with
  | .str s => if f.escaped then env.curl_easy_escape s else s
  | .bool b => if b then "true" else "false"

/-- The XML-RPC document for `fields`: timestamp, auth token, then the
fields. -/
def mirrorBody (env : Env) (method : String) (now : Nat) (authToken : String)
    (fields : List Field) : String :=
  encode_request method (.int now :: .string authToken :: fields.map (Field.xml env))

/-- The URL for `fields`: one numbered argument per field. -/
def mirrorUrl (env : Env) (routeId listenerId method : String) (fields : List Field) : String :=
  request_url env.PIANO_RPC_URL routeId listenerId method (fields.map (Field.url env))

/-- The request `req` is the exact mirror pair of `fields`. -/
def SendsExactly (env : Env) (now : Nat) (ph : PianoHandle_t) (authToken listenerId : String)
    (xmlMethod urlMethod : String) (fields : List Field)
    (req : Except Fault (String × String)) : Prop :=
  req = .ok (mirrorBody env xmlMethod now authToken fields,
             mirrorUrl env ph.routeId listenerId urlMethod fields)

/-- The request `req` is the mirror pair of `fields` as it lands in the two
fixed-size buffers: cut to 9999 bytes of XML and `PIANO_URL_BUFFER_SIZE - 1`
bytes of URL, and exact when both fit. -/
def Sends (env : Env) (now : Nat) (ph : PianoHandle_t) (authToken listenerId : String)
    (xmlMethod urlMethod : String) (fields : List Field)
    (req : Except Fault (String × String)) : Prop :=
  req = .ok (snprintf 10000 (mirrorBody env xmlMethod now authToken fields),
             snprintf env.PIANO_URL_BUFFER_SIZE
               (mirrorUrl env ph.routeId listenerId urlMethod fields)) ∧
  ((mirrorBody env xmlMethod now authToken fields).length < 10000 →
   (mirrorUrl env ph.routeId listenerId urlMethod fields).length < env.PIANO_URL_BUFFER_SIZE →
   SendsExactly env now ph authToken listenerId xmlMethod urlMethod fields req)

/-- The request `req` carries the logical values `values`, field for field, in
both encodings: there is one ordered field list with exactly these values of
which `req` is the exact mirror pair. -/
def MirrorsExactly (env : Env) (now : Nat) (ph : PianoHandle_t) (authToken listenerId : String)
    (xmlMethod urlMethod : String) (values : List Value)
    (req : Except Fault (String × String)) : Prop :=
  ∃ fields : List Field, fields.map Field.value = values ∧
    SendsExactly env now ph authToken listenerId xmlMethod urlMethod fields req

/-- As `MirrorsExactly`, through the two fixed-size buffers. -/
def Mirrors (env : Env) (now : Nat) (ph : PianoHandle_t) (authToken listenerId : String)
    (xmlMethod urlMethod : String) (values : List Value)
    (req : Except Fault (String × String)) : Prop :=
  ∃ fields : List Field, fields.map Field.value = values ∧
    Sends env now ph authToken listenerId xmlMethod urlMethod fields req

/-! ## Auxiliary definitions of the proofs -/

/-- The bytes of `s` put in front of `t`. -/
def pre (s : String) (t : List Char) : List Char :=
  s.data ++ t

/-- The body the next POST will receive (`none`: transport failure). -/
def nextReply (w : World) : Option String :=
  match w.replies with
  | [] => none
  | r :: _ => r.body

/-- `PianoConnect` run in a world whose next two replies are `sync`, for the
synchronization POST, and `auth`, for the authentication POST. -/
def connectWith (env : Env) (s : State) (user password : String) (sync auth : Reply)
    (rest : List Reply) : State × PianoReturn_t :=
  PianoConnect env { s with world := { s.world with replies := sync :: auth :: rest } }
    user password

/-- The URL of the authentication POST of `PianoConnect`. -/
def authenticateUrl (env : Env) (ph : PianoHandle_t) : String :=
  snprintf env.PIANO_URL_BUFFER_SIZE
    (env.PIANO_SECURE_RPC_URL ++ "rid=" ++ ph.routeId ++ "&method=authenticateListener")

/-- A search string of 10000 bytes. -/
def overlongSearch : String :=
  ⟨List.replicate 10000 'a'⟩

/-! ## String lemmas -/

set_option maxRecDepth 10000

theorem pre_append (a b : String) (t : List Char) : pre (a ++ b) t = pre a (pre b t) := by
  simp [pre, String.data_append]

theorem eq_of_pre {a b : String} (h : pre a [] = pre b []) : a = b := by
  apply String.ext
  simpa [pre] using h

theorem ok_snprintf_congr {n m : Nat} {a a' b b' : String} (ha : a = a') (hb : b = b') :
    (Except.ok (snprintf n a, snprintf m b) : Except Fault (String × String)) =
      .ok (snprintf n a', snprintf m b') := by
  rw [ha, hb]

theorem snprintf_of_fits (size : Nat) (s : String) (h : s.length < size) :
    snprintf size s = s := by
  unfold snprintf
  apply String.ext
  simp only [String.length] at h
  exact List.take_of_length_le (by omega)

theorem snprintf_length_lt (size : Nat) (s : String) (h : 0 < size) :
    (snprintf size s).length < size := by
  simp only [snprintf, String.length, List.length_take]
  omega

theorem sends_of_eq (env : Env) (now : Nat) (ph : PianoHandle_t) (authToken listenerId : String)
    (xmlMethod urlMethod : String) (fields : List Field)
    (req : Except Fault (String × String))
    (h : req = .ok (snprintf 10000 (mirrorBody env xmlMethod now authToken fields),
             snprintf env.PIANO_URL_BUFFER_SIZE
               (mirrorUrl env ph.routeId listenerId urlMethod fields))) :
    Sends env now ph authToken listenerId xmlMethod urlMethod fields req := by
  refine ⟨h, fun hb hu => ?_⟩
  rw [SendsExactly, h, snprintf_of_fits _ _ hb, snprintf_of_fits _ _ hu]

/-! ## The requests against the wire shape of the specification -/

theorem getPlaylist_sends (env : Env) (now : Nat) (ph : PianoHandle_t)
    (authToken listenerId stationId : String)
    (hauth : ph.user.authToken = some authToken) (hlid : ph.user.listenerId = some listenerId) :
    Sends env now ph authToken listenerId "playlist.getFragment" "getFragment"
      [⟨.str stationId, false⟩, ⟨.str "15941546", false⟩, ⟨.str "181840822", false⟩,
       ⟨.str "", false⟩, ⟨.str "", false⟩, ⟨.str "aacplus", false⟩]
      (PianoGetPlaylist.request env now ph stationId) := by
  apply sends_of_eq
  simp only [PianoGetPlaylist.request, hauth, hlid, cstr, bind, Except.bind, pure, Except.pure]
  apply ok_snprintf_congr
  · apply eq_of_pre
    simp only [mirrorBody, encode_request, XmlRpcValue.encode, Field.xml, String.join,
      List.map, List.foldl, pre_append, if_false, Bool.false_eq_true]
    rfl
  · apply eq_of_pre
    simp only [mirrorUrl, request_url, query_args, Field.url,
      List.map, pre_append, if_false, Bool.false_eq_true]
    rfl

theorem rateTrack_sends (env : Env) (now : Nat) (ph : PianoHandle_t) (station : PianoStation_t)
    (song : PianoSong_t) (rating : PianoSongRating_t)
    (authToken listenerId stationId musicId matchingSeed userSeed : String)
    (hauth : ph.user.authToken = some authToken) (hlid : ph.user.listenerId = some listenerId)
    (hsid : station.id = some stationId) (hmid : song.musicId = some musicId)
    (hms : song.matchingSeed = some matchingSeed) (hus : song.userSeed = some userSeed) :
    Sends env now ph authToken listenerId "station.addFeedback" "addFeedback"
      [⟨.str stationId, false⟩, ⟨.str musicId, false⟩, ⟨.str matchingSeed, false⟩,
       ⟨.str userSeed, false⟩, ⟨.str (song.focusTraitId.getD ""), false⟩,
       ⟨.bool (decide (rating = .PIANO_RATE_LOVE)), false⟩, ⟨.bool false, false⟩]
      (PianoRateTrack.request env now ph station song rating) := by
  apply sends_of_eq
  simp only [PianoRateTrack.request, hauth, hlid, hsid, hmid, hms, hus, cstr, bind,
    Except.bind, pure, Except.pure]
  apply ok_snprintf_congr
  · apply eq_of_pre
    cases hft : song.focusTraitId <;> by_cases hr : rating = .PIANO_RATE_LOVE <;>
      simp only [mirrorBody, encode_request, XmlRpcValue.encode, Field.xml, String.join, hr,
        List.map, List.foldl, pre_append, if_true, if_false, decide_True, decide_False,
        Option.getD, Bool.false_eq_true] <;> rfl
  · apply eq_of_pre
    cases hft : song.focusTraitId <;> by_cases hr : rating = .PIANO_RATE_LOVE <;>
      simp only [mirrorUrl, request_url, query_args, Field.url, hr,
        List.map, pre_append, if_true, if_false, decide_True, decide_False,
        Option.getD, Bool.false_eq_true] <;> rfl

theorem renameStation_sends (env : Env) (now : Nat) (ph : PianoHandle_t)
    (station : PianoStation_t) (newName authToken listenerId stationId : String)
    (hauth : ph.user.authToken = some authToken) (hlid : ph.user.listenerId = some listenerId)
    (hsid : station.id = some stationId) :
    Sends env now ph authToken listenerId "station.setStationName" "setStationName"
      [⟨.str stationId, false⟩, ⟨.str newName, true⟩]
      (PianoRenameStation.request env now ph station newName) := by
  apply sends_of_eq
  simp only [PianoRenameStation.request, hauth, hlid, hsid, cstr, bind, Except.bind, pure,
    Except.pure]
  apply ok_snprintf_congr
  · apply eq_of_pre
    simp only [mirrorBody, encode_request, XmlRpcValue.encode, Field.xml, String.join,
      List.map, List.foldl, pre_append, if_true, if_false, Bool.false_eq_true]
    rfl
  · apply eq_of_pre
    simp only [mirrorUrl, request_url, query_args, Field.url,
      List.map, pre_append, if_true, if_false, Bool.false_eq_true]
    rfl

theorem deleteStation_sends (env : Env) (now : Nat) (ph : PianoHandle_t)
    (station : PianoStation_t) (authToken listenerId stationId : String)
    (hauth : ph.user.authToken = some authToken) (hlid : ph.user.listenerId = some listenerId)
    (hsid : station.id = some stationId) :
    Sends env now ph authToken listenerId "station.removeStation" "removeStation"
      [⟨.str stationId, false⟩]
      (PianoDeleteStation.request env now ph station) := by
  apply sends_of_eq
  simp only [PianoDeleteStation.request, hauth, hlid, hsid, cstr, bind, Except.bind, pure,
    Except.pure]
  apply ok_snprintf_congr
  · apply eq_of_pre
    simp only [mirrorBody, encode_request, XmlRpcValue.encode, Field.xml, String.join,
      List.map, List.foldl, pre_append, if_false, Bool.false_eq_true]
    rfl
  · apply eq_of_pre
    simp only [mirrorUrl, request_url, query_args, Field.url,
      List.map, pre_append, if_false, Bool.false_eq_true]
    rfl

theorem searchMusic_sends (env : Env) (now : Nat) (ph : PianoHandle_t)
    (searchStr authToken listenerId : String)
    (hauth : ph.user.authToken = some authToken) (hlid : ph.user.listenerId = some listenerId) :
    Sends env now ph authToken listenerId "music.search" "search"
      [⟨.str searchStr, true⟩]
      (PianoSearchMusic.request env now ph searchStr) := by
  apply sends_of_eq
  simp only [PianoSearchMusic.request, hauth, hlid, cstr, bind, Except.bind, pure, Except.pure]
  apply ok_snprintf_congr
  · apply eq_of_pre
    simp only [mirrorBody, encode_request, XmlRpcValue.encode, Field.xml, String.join,
      List.map, List.foldl, pre_append, if_true]
    rfl
  · apply eq_of_pre
    simp only [mirrorUrl, request_url, query_args, Field.url,
      List.map, pre_append, if_true]
    rfl

theorem createStation_sends (env : Env) (now : Nat) (ph : PianoHandle_t)
    (musicId authToken listenerId : String)
    (hauth : ph.user.authToken = some authToken) (hlid : ph.user.listenerId = some listenerId) :
    Sends env now ph authToken listenerId "station.createStation" "createStation"
      [⟨.str ("mi" ++ musicId), false⟩]
      (PianoCreateStation.request env now ph musicId) := by
  apply sends_of_eq
  simp only [PianoCreateStation.request, hauth, hlid, cstr, bind, Except.bind, pure, Except.pure]
  apply ok_snprintf_congr
  · apply eq_of_pre
    simp only [mirrorBody, encode_request, XmlRpcValue.encode, Field.xml, String.join,
      List.map, List.foldl, pre_append, if_false, Bool.false_eq_true]
    rfl
  · apply eq_of_pre
    simp only [mirrorUrl, request_url, query_args, Field.url,
      List.map, pre_append, if_false, Bool.false_eq_true]
    rfl

theorem addMusic_sends (env : Env) (now : Nat) (ph : PianoHandle_t)
    (station : PianoStation_t) (musicId authToken listenerId stationId : String)
    (hauth : ph.user.authToken = some authToken) (hlid : ph.user.listenerId = some listenerId)
    (hsid : station.id = some stationId) :
    Sends env now ph authToken listenerId "station.addSeed" "addSeed"
      [⟨.str stationId, false⟩, ⟨.str musicId, false⟩]
      (PianoStationAddMusic.request env now ph station musicId) := by
  apply sends_of_eq
  simp only [PianoStationAddMusic.request, hauth, hlid, hsid, cstr, bind, Except.bind, pure,
    Except.pure]
  apply ok_snprintf_congr
  · apply eq_of_pre
    simp only [mirrorBody, encode_request, XmlRpcValue.encode, Field.xml, String.join,
      List.map, List.foldl, pre_append, if_false, Bool.false_eq_true]
    rfl
  · apply eq_of_pre
    simp only [mirrorUrl, request_url, query_args, Field.url,
      List.map, pre_append, if_false, Bool.false_eq_true]
    rfl


/-! ## The operations, unfolded -/

theorem PianoHttpPost_snd (w : World) (url body : String) :
    (PianoHttpPost w url body).2 = nextReply w := by
  unfold PianoHttpPost nextReply
  cases w.replies <;> rfl

theorem PianoHttpPost_posts (w : World) (url body : String) :
    (PianoHttpPost w url body).1.posts = w.posts ++ [(url, body)] := by
  unfold PianoHttpPost
  cases w.replies <;> rfl

theorem PianoRateTrack_ok (env : Env) (s : State) (station song : Ptr)
    (rating : PianoSongRating_t) (st : PianoStation_t) (sg : PianoSong_t) (xml url : String)
    (hst : s.mem.stations station = some st) (hsg : s.mem.songs song = some sg)
    (hreq : PianoRateTrack.request env s.world.now s.ph st sg rating = .ok (xml, url))
    (hret : env.PianoXmlParseSimple (nextReply s.world) = .PIANO_RET_OK) :
    PianoRateTrack env s station song rating =
      .ok ({ s with mem := s.mem.setSong song (some { sg with rating := rating }),
                    world := (PianoHttpPost s.world url (env.PianoEncryptString xml)).1 },
           .PIANO_RET_OK) := by
  simp only [PianoRateTrack, Memory.station, Memory.song, hst, hsg, hreq, bind, Except.bind,
    PianoHttpPost_snd, hret, if_true, pure, Except.pure]

theorem PianoRateTrack_failed (env : Env) (s : State) (station song : Ptr)
    (rating : PianoSongRating_t) (st : PianoStation_t) (sg : PianoSong_t) (xml url : String)
    (hst : s.mem.stations station = some st) (hsg : s.mem.songs song = some sg)
    (hreq : PianoRateTrack.request env s.world.now s.ph st sg rating = .ok (xml, url))
    (hret : env.PianoXmlParseSimple (nextReply s.world) ≠ .PIANO_RET_OK) :
    PianoRateTrack env s station song rating =
      .ok ({ s with world := (PianoHttpPost s.world url (env.PianoEncryptString xml)).1 },
           env.PianoXmlParseSimple (nextReply s.world)) := by
  simp only [PianoRateTrack, Memory.station, Memory.song, hst, hsg, hreq, bind, Except.bind,
    PianoHttpPost_snd, hret, if_false, pure, Except.pure]

theorem CharPtr.read_own_name_released (mem : Memory) (station : Ptr) (st : PianoStation_t) :
    (CharPtr.stationName station).read
        (mem.setStation station (some { st with name := none })) = .error .nullString := by
  simp [CharPtr.read, Memory.station, Memory.setStation, cstr, bind, Except.bind]

theorem PianoRenameStation_failed (env : Env) (s : State) (station : Ptr) (newName : CharPtr)
    (name : String) (st : PianoStation_t) (xml url : String)
    (hst : s.mem.stations station = some st)
    (hname : newName.read s.mem = .ok name)
    (hreq : PianoRenameStation.request env s.world.now s.ph st name = .ok (xml, url))
    (hret : env.PianoXmlParseSimple (nextReply s.world) ≠ .PIANO_RET_OK) :
    PianoRenameStation env s station newName =
      .ok ({ s with world := (PianoHttpPost s.world url (env.PianoEncryptString xml)).1 },
           env.PianoXmlParseSimple (nextReply s.world)) := by
  simp only [PianoRenameStation, Memory.station, hst, hname, hreq, bind, Except.bind,
    PianoHttpPost_snd, hret, if_false, pure, Except.pure]

theorem PianoRenameStation_own_name (env : Env) (s : State) (station : Ptr)
    (name : String) (st : PianoStation_t) (xml url : String)
    (hst : s.mem.stations station = some st) (hname : st.name = some name)
    (hreq : PianoRenameStation.request env s.world.now s.ph st name = .ok (xml, url))
    (hret : env.PianoXmlParseSimple (nextReply s.world) = .PIANO_RET_OK) :
    PianoRenameStation env s station (.stationName station) = .error .nullString := by
  have hread : (CharPtr.stationName station).read s.mem = .ok name := by
    simp [CharPtr.read, Memory.station, hst, hname, cstr, bind, Except.bind]
  simp only [PianoRenameStation, Memory.station, hst, hread, hreq, bind, Except.bind,
    PianoHttpPost_snd, hret, if_true, CharPtr.read_own_name_released]

theorem PianoDeleteStation_failed (env : Env) (fuel : Nat) (s : State) (station : Ptr)
    (st : PianoStation_t) (xml url : String)
    (hst : s.mem.stations station = some st)
    (hreq : PianoDeleteStation.request env s.world.now s.ph st = .ok (xml, url))
    (hret : env.PianoXmlParseSimple (nextReply s.world) ≠ .PIANO_RET_OK) :
    PianoDeleteStation env fuel s station =
      .ok ({ s with world := (PianoHttpPost s.world url (env.PianoEncryptString xml)).1 },
           env.PianoXmlParseSimple (nextReply s.world)) := by
  simp only [PianoDeleteStation, Memory.station, hst, hreq, bind, Except.bind,
    PianoHttpPost_snd, hret, if_false, pure, Except.pure]

theorem PianoDeleteStation_loop_not_listed (station : Ptr) (l : List (Ptr × PianoStation_t)) :
    ∀ (fuel : Nat) (ph : PianoHandle_t) (mem : Memory) (curStation lastStation : Ptr),
      IsStationList mem curStation l → station ∉ l.map Prod.fst → l.length < fuel →
      PianoDeleteStation.loop station fuel ph mem curStation lastStation = .ok (ph, mem) := by
  induction l with
  | nil =>
    intro fuel ph mem cur last hl _ hf
    cases fuel with
    | zero => omega
    | succ fuel =>
      simp only [IsStationList] at hl
      simp [PianoDeleteStation.loop, hl]
  | cons e rest ih =>
    intro fuel ph mem cur last hl hn hf
    obtain ⟨a, node⟩ := e
    cases fuel with
    | zero => simp at hf
    | succ fuel =>
      simp only [IsStationList] at hl
      obtain ⟨hp, ha, hmem, hrest⟩ := hl
      subst hp
      simp only [List.map_cons, List.mem_cons, not_or] at hn
      have hne : cur ≠ station := fun h => hn.1 h.symm
      simp only [List.length_cons, Nat.succ_lt_succ_iff] at hf
      simp only [PianoDeleteStation.loop, ha, hne, if_false, Memory.station, hmem, bind,
        Except.bind, pure, Except.pure]
      exact ih fuel ph mem node.next cur hrest hn.2 hf

theorem PianoDeleteStation_not_listed (env : Env) (fuel : Nat) (s : State) (station : Ptr)
    (st : PianoStation_t) (xml url : String) (l : List (Ptr × PianoStation_t))
    (hst : s.mem.stations station = some st)
    (hreq : PianoDeleteStation.request env s.world.now s.ph st = .ok (xml, url))
    (hret : env.PianoXmlParseSimple (nextReply s.world) = .PIANO_RET_OK)
    (hl : IsStationList s.mem s.ph.stations l) (hn : station ∉ l.map Prod.fst)
    (hf : l.length < fuel) :
    PianoDeleteStation env fuel s station =
      .ok ({ s with world := (PianoHttpPost s.world url (env.PianoEncryptString xml)).1 },
           .PIANO_RET_OK) := by
  simp only [PianoDeleteStation, Memory.station, hst, hreq, bind, Except.bind,
    PianoHttpPost_snd, hret, if_true, pure, Except.pure,
    PianoDeleteStation_loop_not_listed station l fuel s.ph s.mem s.ph.stations 0 hl hn hf]


/-! ## The list views under the local mutations -/

theorem songList_block_of_mem (mem : Memory) (l : List (Ptr × PianoSong_t)) :
    ∀ (p : Ptr), IsSongList mem p l → ∀ e ∈ l, mem.songs e.1 = some e.2 := by
  induction l with
  | nil => intro p _ e he; cases he
  | cons hd rest ih =>
    intro p hl e he
    obtain ⟨a, node⟩ := hd
    simp only [IsSongList] at hl
    rcases List.mem_cons.mp he with h | h
    · subst h; exact hl.2.2.1
    · exact ih node.next hl.2.2.2 e h

theorem stationList_block_of_mem (mem : Memory) (l : List (Ptr × PianoStation_t)) :
    ∀ (p : Ptr), IsStationList mem p l → ∀ e ∈ l, mem.stations e.1 = some e.2 := by
  induction l with
  | nil => intro p _ e he; cases he
  | cons hd rest ih =>
    intro p hl e he
    obtain ⟨a, node⟩ := hd
    simp only [IsStationList] at hl
    rcases List.mem_cons.mp he with h | h
    · subst h; exact hl.2.2.1
    · exact ih node.next hl.2.2.2 e h

theorem songList_setRating (song : Ptr) (rating : PianoSongRating_t) (sg : PianoSong_t)
    (mem : Memory) (hsg : mem.songs song = some sg) (l : List (Ptr × PianoSong_t)) :
    ∀ (p : Ptr), IsSongList mem p l →
      IsSongList (mem.setSong song (some { sg with rating := rating })) p
        (withRating song rating l) := by
  induction l with
  | nil => intro p hl; simpa [withRating, IsSongList] using hl
  | cons hd rest ih =>
    intro p hl
    obtain ⟨a, node⟩ := hd
    simp only [IsSongList] at hl
    obtain ⟨hp, ha, hmem, hrest⟩ := hl
    have ih := ih node.next hrest
    by_cases h : a = song
    · subst h
      have hn : node = sg := by rw [hmem] at hsg; exact Option.some.inj hsg
      subst hn
      have hw : withRating a rating ((a, node) :: rest) =
          (a, { node with rating := rating }) :: withRating a rating rest := by
        simp [withRating]
      rw [hw]
      exact ⟨hp, ha, by simp [Memory.setSong], ih⟩
    · have hw : withRating song rating ((a, node) :: rest) =
          (a, node) :: withRating song rating rest := by
        simp [withRating, h]
      rw [hw]
      exact ⟨hp, ha, by simpa [Memory.setSong, Function.update_noteq h] using hmem, ih⟩

/-- C2: when the status parsed from the reply is not `PIANO_RET_OK` (whatever
the reply is, a transport failure included), each of `PianoRateTrack`,
`PianoRenameStation` and `PianoDeleteStation` returns that status and hands
back the session with its handle and its whole heap, hence its station list
and its playlist, exactly as before; only the world has moved on.  The session
needs its two tokens and the station block with its id; a song is asked for
only by `PianoRateTrack`, a readable new name (which may well be the station's
own name buffer) only by `PianoRenameStation`. -/
theorem failed_call_leaves_collections (env : Env) (fuel : Nat) (s : State)
    (station : Ptr) (st : PianoStation_t) (authToken listenerId stationId : String)
    (hauth : s.ph.user.authToken = some authToken)
    (hlid : s.ph.user.listenerId = some listenerId)
    (hst : s.mem.stations station = some st) (hsid : st.id = some stationId)
    (hret : env.PianoXmlParseSimple (nextReply s.world) ≠ .PIANO_RET_OK) :
    (∀ (song : Ptr) (sg : PianoSong_t) (rating : PianoSongRating_t)
        (musicId matchingSeed userSeed : String),
      s.mem.songs song = some sg → sg.musicId = some musicId →
      sg.matchingSeed = some matchingSeed → sg.userSeed = some userSeed →
      ∃ s', PianoRateTrack env s station song rating =
        .ok (s', env.PianoXmlParseSimple (nextReply s.world)) ∧
        s'.ph = s.ph ∧ s'.mem = s.mem) ∧
    (∀ (newName : CharPtr) (name : String), newName.read s.mem = .ok name →
      ∃ s', PianoRenameStation env s station newName =
        .ok (s', env.PianoXmlParseSimple (nextReply s.world)) ∧
        s'.ph = s.ph ∧ s'.mem = s.mem) ∧
    (∃ s', PianoDeleteStation env fuel s station =
        .ok (s', env.PianoXmlParseSimple (nextReply s.world)) ∧
        s'.ph = s.ph ∧ s'.mem = s.mem) :=
  ⟨fun song sg rating musicId matchingSeed userSeed hsg hmid hms hus =>
    ⟨_, PianoRateTrack_failed env s station song rating st sg _ _ hst hsg
      (rateTrack_sends env s.world.now s.ph st sg rating authToken listenerId stationId musicId
        matchingSeed userSeed hauth hlid hsid hmid hms hus).1 hret, rfl, rfl⟩,
   fun newName name hname =>
    ⟨_, PianoRenameStation_failed env s station newName name st _ _ hst hname
      (renameStation_sends env s.world.now s.ph st name authToken listenerId stationId
        hauth hlid hsid).1 hret, rfl, rfl⟩,
   ⟨_, PianoDeleteStation_failed env fuel s station st _ _ hst
      (deleteStation_sends env s.world.now s.ph st authToken listenerId stationId
        hauth hlid hsid).1 hret, rfl, rfl⟩⟩

/-- C3: when `PianoRateTrack` is called on a song of the playlist and the
parsed status is `PIANO_RET_OK`, it returns that status; afterwards the playlist
is the same chain of nodes with the rating of that song set to the requested
rating and every other member of every song as before, every other song block
is untouched, and the station blocks and the handle (so the station list) are
unchanged.  This holds for every rating, loved and banned in particular. -/
theorem rateTrack_ok_sets_only_that_rating (env : Env) (s : State) (station song : Ptr)
    (rating : PianoSongRating_t) (st : PianoStation_t) (sg : PianoSong_t)
    (l : List (Ptr × PianoSong_t))
    (authToken listenerId stationId musicId matchingSeed userSeed : String)
    (hauth : s.ph.user.authToken = some authToken)
    (hlid : s.ph.user.listenerId = some listenerId)
    (hst : s.mem.stations station = some st) (hsid : st.id = some stationId)
    (hl : IsSongList s.mem s.ph.playlist l) (hin : (song, sg) ∈ l)
    (hmid : sg.musicId = some musicId)
    (hms : sg.matchingSeed = some matchingSeed) (hus : sg.userSeed = some userSeed)
    (hret : env.PianoXmlParseSimple (nextReply s.world) = .PIANO_RET_OK) :
    ∃ s', PianoRateTrack env s station song rating = .ok (s', .PIANO_RET_OK) ∧
      IsSongList s'.mem s'.ph.playlist (withRating song rating l) ∧
      s'.mem.songs song = some { sg with rating := rating } ∧
      (∀ p, p ≠ song → s'.mem.songs p = s.mem.songs p) ∧
      s'.mem.stations = s.mem.stations ∧ s'.mem.artists = s.mem.artists ∧ s'.ph = s.ph := by
  have hsg : s.mem.songs song = some sg := songList_block_of_mem s.mem l _ hl _ hin
  refine ⟨_, PianoRateTrack_ok env s station song rating st sg _ _ hst hsg
      (rateTrack_sends env s.world.now s.ph st sg rating authToken listenerId stationId musicId
        matchingSeed userSeed hauth hlid hsid hmid hms hus).1 hret, ?_, ?_, ?_, rfl, rfl, rfl⟩
  · exact songList_setRating song rating sg s.mem hsg l _ hl
  · simp [Memory.setSong]
  · intro p hp
    simp [Memory.setSong, Function.update_noteq hp]

/-- Companion to C4: the call that C4 leaves out.  When the new name is the
station's own name buffer and the parsed status is `PIANO_RET_OK`,
`free (station->name)` releases the buffer and `strdup (newName)` then reads
it. -/
theorem renameStation_to_own_name_reads_released_buffer (env : Env) (s : State)
    (station : Ptr) (name : String) (st : PianoStation_t)
    (authToken listenerId stationId : String)
    (hauth : s.ph.user.authToken = some authToken)
    (hlid : s.ph.user.listenerId = some listenerId)
    (hst : s.mem.stations station = some st) (hsid : st.id = some stationId)
    (hname : st.name = some name)
    (hret : env.PianoXmlParseSimple (nextReply s.world) = .PIANO_RET_OK) :
    PianoRenameStation env s station (.stationName station) = .error .nullString :=
  PianoRenameStation_own_name env s station name st _ _ hst hname
    (renameStation_sends env s.world.now s.ph st name authToken listenerId stationId
      hauth hlid hsid).1 hret

/-- Companion to C4 at the fixture: station 2 renamed to its own name buffer
faults; renamed to the name buffer of station 1 it takes that name. -/
theorem renameStation_aliasing_at_fixture :
    PianoRenameStation fixtureEnv (fixtureState [⟨some "OK", 1⟩]) 2 (.stationName 2) =
      .error .nullString ∧
    ∃ s', PianoRenameStation fixtureEnv (fixtureState [⟨some "OK", 1⟩]) 2 (.stationName 1) =
        .ok (s', .PIANO_RET_OK) ∧
      s'.mem.stations 2 = some (fixtureStation "Rock" "S2" 3) :=
  ⟨rfl, _, rfl, rfl⟩

/-- C6: when `PianoDeleteStation` is called with a station block that is not a
node of the station list (its id may equal the id of a listed station) and the
parsed status is `PIANO_RET_OK`, it returns that status and hands back the
session with its handle and its whole heap as before: same nodes, same order,
same ids and names. -/
theorem deleteStation_unlisted_changes_nothing (env : Env) (fuel : Nat) (s : State)
    (station : Ptr) (st : PianoStation_t) (l : List (Ptr × PianoStation_t))
    (authToken listenerId stationId : String)
    (hauth : s.ph.user.authToken = some authToken)
    (hlid : s.ph.user.listenerId = some listenerId)
    (hst : s.mem.stations station = some st) (hsid : st.id = some stationId)
    (hl : IsStationList s.mem s.ph.stations l) (hn : station ∉ l.map Prod.fst)
    (hf : l.length < fuel)
    (hret : env.PianoXmlParseSimple (nextReply s.world) = .PIANO_RET_OK) :
    ∃ s', PianoDeleteStation env fuel s station = .ok (s', .PIANO_RET_OK) ∧
      s'.ph = s.ph ∧ s'.mem = s.mem ∧ IsStationList s'.mem s'.ph.stations l :=
  ⟨_, PianoDeleteStation_not_listed env fuel s station st _ _ l hst
      (deleteStation_sends env s.world.now s.ph st authToken listenerId stationId
        hauth hlid hsid).1 hret hl hn hf, rfl, rfl, hl⟩


/-- C2 at the fixture: the server answers `denied`; station 2, song 11, a new
name in a buffer of the caller. -/
theorem failed_call_leaves_collections_witness :
    (∃ s', PianoRateTrack fixtureEnv (fixtureState [⟨some "denied", 2⟩]) 2 11 .PIANO_RATE_LOVE =
        .ok (s', fixtureEnv.PianoXmlParseSimple
          (nextReply (fixtureState [⟨some "denied", 2⟩]).world)) ∧
        s'.ph = (fixtureState [⟨some "denied", 2⟩]).ph ∧
        s'.mem = (fixtureState [⟨some "denied", 2⟩]).mem) ∧
    (∃ s', PianoRenameStation fixtureEnv (fixtureState [⟨some "denied", 2⟩]) 2
          (.buffer "Blues & Soul") =
        .ok (s', fixtureEnv.PianoXmlParseSimple
          (nextReply (fixtureState [⟨some "denied", 2⟩]).world)) ∧
        s'.ph = (fixtureState [⟨some "denied", 2⟩]).ph ∧
        s'.mem = (fixtureState [⟨some "denied", 2⟩]).mem) ∧
    (∃ s', PianoDeleteStation fixtureEnv 8 (fixtureState [⟨some "denied", 2⟩]) 2 =
        .ok (s', fixtureEnv.PianoXmlParseSimple
          (nextReply (fixtureState [⟨some "denied", 2⟩]).world)) ∧
        s'.ph = (fixtureState [⟨some "denied", 2⟩]).ph ∧
        s'.mem = (fixtureState [⟨some "denied", 2⟩]).mem) :=
  ⟨(failed_call_leaves_collections fixtureEnv 8 (fixtureState [⟨some "denied", 2⟩]) 2
      (fixtureStation "Jazz" "S2" 3) "A" "L" "S2" rfl rfl rfl rfl (by decide)).1
      11 (fixtureSong "First" "T1" .PIANO_RATE_LOVE 12) .PIANO_RATE_LOVE "T1" "M" "U"
      rfl rfl rfl rfl,
   (failed_call_leaves_collections fixtureEnv 8 (fixtureState [⟨some "denied", 2⟩]) 2
      (fixtureStation "Jazz" "S2" 3) "A" "L" "S2" rfl rfl rfl rfl (by decide)).2.1
      (.buffer "Blues & Soul") "Blues & Soul" rfl,
   (failed_call_leaves_collections fixtureEnv 8 (fixtureState [⟨some "denied", 2⟩]) 2
      (fixtureStation "Jazz" "S2" 3) "A" "L" "S2" rfl rfl rfl rfl (by decide)).2.2⟩

/-- C3 at the fixture: song 12 of the playlist is banned. -/
theorem rateTrack_ok_sets_only_that_rating_witness :
    ∃ s', PianoRateTrack fixtureEnv (fixtureState [⟨some "OK", 1⟩]) 1 12 .PIANO_RATE_BAN =
        .ok (s', .PIANO_RET_OK) ∧
      IsSongList s'.mem s'.ph.playlist (withRating 12 .PIANO_RATE_BAN
        [(11, fixtureSong "First" "T1" .PIANO_RATE_LOVE 12),
         (12, fixtureSong "Second" "T2" .PIANO_RATE_NONE 0)]) ∧
      s'.mem.songs 12 =
        some { fixtureSong "Second" "T2" .PIANO_RATE_NONE 0 with rating := .PIANO_RATE_BAN } ∧
      (∀ p, p ≠ 12 → s'.mem.songs p = (fixtureState [⟨some "OK", 1⟩]).mem.songs p) ∧
      s'.mem.stations = (fixtureState [⟨some "OK", 1⟩]).mem.stations ∧
      s'.mem.artists = (fixtureState [⟨some "OK", 1⟩]).mem.artists ∧
      s'.ph = (fixtureState [⟨some "OK", 1⟩]).ph :=
  rateTrack_ok_sets_only_that_rating fixtureEnv (fixtureState [⟨some "OK", 1⟩]) 1 12
    .PIANO_RATE_BAN (fixtureStation "Rock" "S1" 2) (fixtureSong "Second" "T2" .PIANO_RATE_NONE 0)
    [(11, fixtureSong "First" "T1" .PIANO_RATE_LOVE 12),
     (12, fixtureSong "Second" "T2" .PIANO_RATE_NONE 0)]
    "A" "L" "S1" "T2" "M" "U" rfl rfl rfl rfl (by decide) (by decide) rfl rfl rfl (by decide)

/-- C6 at the fixture: block 7 is not in the list and carries the id of the
listed station 2. -/
theorem deleteStation_unlisted_changes_nothing_witness :
    ∃ s', PianoDeleteStation fixtureEnv 8 (fixtureState [⟨some "OK", 1⟩]) 7 =
        .ok (s', .PIANO_RET_OK) ∧
      s'.ph = (fixtureState [⟨some "OK", 1⟩]).ph ∧
      s'.mem = (fixtureState [⟨some "OK", 1⟩]).mem ∧
      IsStationList s'.mem s'.ph.stations
        [(1, fixtureStation "Rock" "S1" 2), (2, fixtureStation "Jazz" "S2" 3),
         (3, fixtureStation "Folk" "S3" 0)] :=
  deleteStation_unlisted_changes_nothing fixtureEnv 8 (fixtureState [⟨some "OK", 1⟩]) 7
    (fixtureStation "Copy" "S2" 0)
    [(1, fixtureStation "Rock" "S1" 2), (2, fixtureStation "Jazz" "S2" 3),
     (3, fixtureStation "Folk" "S3" 0)]
    "A" "L" "S2" rfl rfl rfl rfl (by decide) (by decide) (by decide) (by decide)


/-! ## Claims on connecting -/

/-- C8: `PianoConnect` ignores the outcome of its synchronization POST.  For
any two sync outcomes (any body or a transport failure, any duration) followed
by the same authentication reply, the returned status, the handle, the heap
and the replies left are identical, and are what `PianoXmlParseUserinfo` makes
of the authentication reply; in either run the log grows by exactly two POSTs,
the second of which goes to the authentication URL. -/
theorem connect_ignores_sync_outcome (env : Env) (s : State) (user password : String)
    (sync1 sync2 auth : Reply) (rest : List Reply) :
    (connectWith env s user password sync1 auth rest).2 =
        (connectWith env s user password sync2 auth rest).2 ∧
    (connectWith env s user password sync1 auth rest).1.ph =
        (connectWith env s user password sync2 auth rest).1.ph ∧
    (connectWith env s user password sync1 auth rest).1.mem =
        (connectWith env s user password sync2 auth rest).1.mem ∧
    (connectWith env s user password sync1 auth rest).1.world.replies =
        (connectWith env s user password sync2 auth rest).1.world.replies ∧
    (connectWith env s user password sync1 auth rest).2 =
        (env.PianoXmlParseUserinfo s.ph s.mem auth.body).2.2 ∧
    (∃ syncPost body, (connectWith env s user password sync1 auth rest).1.world.posts =
        s.world.posts ++ [syncPost, (authenticateUrl env s.ph, body)]) ∧
    (∃ syncPost body, (connectWith env s user password sync2 auth rest).1.world.posts =
        s.world.posts ++ [syncPost, (authenticateUrl env s.ph, body)]) := by
  exact ⟨rfl, rfl, rfl, rfl, rfl, ⟨_, _, List.append_assoc _ _ _⟩,
    ⟨_, _, List.append_assoc _ _ _⟩⟩


/-! ## Where the code departs from the specification -/

/-- C1 (the claim fails on the code): rating the loved song 11 of the fixture
with `PIANO_RATE_NONE` is not rejected.  One POST is issued, the status of the
reply, `PIANO_RET_OK`, is returned, and the song's rating is overwritten with
`PIANO_RATE_NONE`. -/
theorem rateTrack_none_is_posted_and_stored :
    (fixtureState [⟨some "OK", 1⟩]).world.posts = [] ∧
    (fixtureMemory.songs 11).map (fun sg => sg.rating) = some .PIANO_RATE_LOVE ∧
    ∃ s', PianoRateTrack fixtureEnv (fixtureState [⟨some "OK", 1⟩]) 1 11 .PIANO_RATE_NONE =
        .ok (s', .PIANO_RET_OK) ∧
      s'.world.posts.length = 1 ∧
      (s'.mem.songs 11).map (fun sg => sg.rating) = some .PIANO_RATE_NONE :=
  ⟨rfl, rfl, _, rfl, rfl, rfl⟩

/-- C5 (the claim fails on the code): deleting a listed station with status
`PIANO_RET_OK` has no defined result.  After the node is unlinked and released
the loop goes on with `curStation = curStation->next`, which reads the released
node; this happens for the head (1), the middle (2) and the tail (3) of the
fixture's station list. -/
theorem deleteStation_listed_reads_released_node :
    PianoDeleteStation fixtureEnv 8 (fixtureState [⟨some "OK", 1⟩]) 1 =
      .error (.invalidPointer 1) ∧
    PianoDeleteStation fixtureEnv 8 (fixtureState [⟨some "OK", 1⟩]) 2 =
      .error (.invalidPointer 2) ∧
    PianoDeleteStation fixtureEnv 8 (fixtureState [⟨some "OK", 1⟩]) 3 =
      .error (.invalidPointer 3) :=
  ⟨rfl, rfl, rfl⟩

/-- C7 (the claim fails on the code): `PianoDestroyStations` and
`PianoDestroyPlaylist` reset their head, `PianoDestroySearchResult` does not.
On the fixture the station head and the playlist head are `NULL` afterwards,
while the search result still holds the addresses 31 and 21 of its first
artist and first song, both of which have been released. -/
theorem destroySearchResult_leaves_heads_dangling :
    (∃ s', PianoDestroyStations 8 (fixtureState []) = .ok s' ∧ s'.ph.stations = 0) ∧
    (∃ s', PianoDestroyPlaylist 8 (fixtureState []) = .ok s' ∧ s'.ph.playlist = 0) ∧
    (∃ mem searchResult,
      PianoDestroySearchResult 8 fixtureMemory fixtureSearchResult = .ok (mem, searchResult) ∧
      searchResult.artists = 31 ∧ mem.artists 31 = none ∧
      searchResult.songs = 21 ∧ mem.songs 21 = none) :=
  ⟨⟨_, rfl, rfl⟩, ⟨_, rfl, rfl⟩, ⟨_, _, rfl, rfl, rfl, rfl, rfl⟩⟩



theorem PianoDeleteStation_loop_listed (station : Ptr) (l : List (Ptr × PianoStation_t)) :
    ∀ (fuel : Nat) (ph : PianoHandle_t) (mem : Memory) (curStation lastStation : Ptr),
      IsStationList mem curStation l → station ∈ l.map Prod.fst →
      (lastStation = 0 ∨ ∃ n, mem.stations lastStation = some n) → l.length ≤ fuel →
      PianoDeleteStation.loop station fuel ph mem curStation lastStation =
        .error (.invalidPointer station) := by
  induction l with
  | nil => intro fuel ph mem cur last _ hin; simp at hin
  | cons e rest ih =>
    intro fuel ph mem cur last hl hin hlast hf
    obtain ⟨a, node⟩ := e
    cases fuel with
    | zero => simp at hf
    | succ fuel =>
      simp only [IsStationList] at hl
      obtain ⟨hp, ha, hmem, hrest⟩ := hl
      subst hp
      simp only [List.length_cons, Nat.succ_le_succ_iff] at hf
      by_cases hcs : cur = station
      · subst hcs
        rcases hlast with h0 | ⟨n, hn⟩
        · subst h0
          simp [PianoDeleteStation.loop, ha, Memory.station, hmem, bind, Except.bind, pure,
            Except.pure, PianoDestroyStation, Memory.freeStation, Memory.setStation]
        · by_cases hl0 : last = 0
          · subst hl0
            simp [PianoDeleteStation.loop, ha, Memory.station, hmem, bind, Except.bind, pure,
              Except.pure, PianoDestroyStation, Memory.freeStation, Memory.setStation]
          · by_cases hcl : cur = last
            · subst hcl
              simp [PianoDeleteStation.loop, ha, Memory.station, hmem, bind, Except.bind,
                pure, Except.pure, PianoDestroyStation, Memory.freeStation, Memory.setStation]
            · simp [PianoDeleteStation.loop, ha, hl0, Memory.station, hmem, hn, bind,
                Except.bind, pure, Except.pure, PianoDestroyStation, Memory.freeStation,
                Memory.setStation, Function.update_noteq hcl]
      · have hin' : station ∈ rest.map Prod.fst := by
          simp only [List.map_cons, List.mem_cons] at hin
          rcases hin with h | h
          · exact absurd h.symm hcs
          · exact h
        simp only [PianoDeleteStation.loop, ha, hcs, if_false, Memory.station, hmem, bind,
          Except.bind, pure, Except.pure]
        exact ih fuel ph mem node.next cur hrest hin' (Or.inr ⟨node, hmem⟩) hf

/-- Companion to C5: what the fixture shows holds for every session.  Whenever
a station of the station list is deleted and the parsed status is
`PIANO_RET_OK`, the walk reads the node it has just released. -/
theorem PianoDeleteStation_listed (env : Env) (fuel : Nat) (s : State) (station : Ptr)
    (st : PianoStation_t) (l : List (Ptr × PianoStation_t))
    (authToken listenerId stationId : String)
    (hauth : s.ph.user.authToken = some authToken)
    (hlid : s.ph.user.listenerId = some listenerId)
    (hl : IsStationList s.mem s.ph.stations l) (hin : (station, st) ∈ l)
    (hsid : st.id = some stationId) (hf : l.length ≤ fuel)
    (hret : env.PianoXmlParseSimple (nextReply s.world) = .PIANO_RET_OK) :
    PianoDeleteStation env fuel s station = .error (.invalidPointer station) := by
  have hst : s.mem.stations station = some st := stationList_block_of_mem s.mem l _ hl _ hin
  have hreq := (deleteStation_sends env s.world.now s.ph st authToken listenerId stationId
    hauth hlid hsid).1
  have hmem : station ∈ l.map Prod.fst := List.mem_map.mpr ⟨(station, st), hin, rfl⟩
  simp only [PianoDeleteStation, Memory.station, hst, hreq, bind, Except.bind,
    PianoHttpPost_snd, hret, if_true,
    PianoDeleteStation_loop_listed station l fuel s.ph s.mem s.ph.stations 0 hl hmem
      (Or.inl rfl) hf]

/-- Companion to C7: `PianoDestroySearchResult` never writes to the search
result; whatever it releases, the two heads it hands back are the ones it was
given. -/
theorem PianoDestroySearchResult_keeps_heads (fuel : Nat) (mem mem' : Memory)
    (searchResult searchResult' : PianoSearchResult_t)
    (h : PianoDestroySearchResult fuel mem searchResult = .ok (mem', searchResult')) :
    searchResult' = searchResult := by
  unfold PianoDestroySearchResult at h
  cases h1 : PianoDestroySearchResult.artistLoop fuel mem searchResult.artists with
  | error e => simp [h1, bind, Except.bind] at h
  | ok m1 =>
    cases h2 : PianoDestroySearchResult.songLoop fuel m1 searchResult.songs with
    | error e => simp [h1, h2, bind, Except.bind] at h
    | ok m2 =>
      simp only [h1, h2, bind, Except.bind, pure, Except.pure, Except.ok.injEq,
        Prod.mk.injEq] at h
      exact h.2.symm


/-! ## Teardown of the station list and of the playlist -/

theorem stationList_unique (mem : Memory) (l1 : List (Ptr × PianoStation_t)) :
    ∀ (l2 : List (Ptr × PianoStation_t)) (p : Ptr),
      IsStationList mem p l1 → IsStationList mem p l2 → l1 = l2 := by
  induction l1 with
  | nil =>
    intro l2 p h1 h2
    cases l2 with
    | nil => rfl
    | cons e r =>
      obtain ⟨b, m⟩ := e
      simp only [IsStationList] at h1 h2
      exact absurd (h2.1.symm.trans h1) h2.2.1
  | cons e r1 ih =>
    intro l2 p h1 h2
    obtain ⟨a, n⟩ := e
    cases l2 with
    | nil =>
      simp only [IsStationList] at h1 h2
      exact absurd (h1.1.symm.trans h2) h1.2.1
    | cons e2 r2 =>
      obtain ⟨b, m⟩ := e2
      simp only [IsStationList] at h1 h2
      obtain ⟨hp1, _, hm1, hr1⟩ := h1
      obtain ⟨hp2, _, hm2, hr2⟩ := h2
      have hab : a = b := hp1.symm.trans hp2
      subst hab
      have hnm : n = m := Option.some.inj (hm1.symm.trans hm2)
      subst hnm
      rw [ih r2 n.next hr1 hr2]

theorem stationList_from_member (mem : Memory) (l : List (Ptr × PianoStation_t)) :
    ∀ (p : Ptr), IsStationList mem p l → ∀ a ∈ l.map Prod.fst,
      ∃ l', IsStationList mem a l' ∧ l'.length ≤ l.length := by
  induction l with
  | nil => intro p _ a ha; simp at ha
  | cons e rest ih =>
    intro p hl a ha
    obtain ⟨b, n⟩ := e
    have hl' := hl
    simp only [IsStationList] at hl'
    obtain ⟨hp, _, _, hrest⟩ := hl'
    simp only [List.map_cons, List.mem_cons] at ha
    rcases ha with h | h
    · subst h
      subst hp
      exact ⟨_, hl, le_refl _⟩
    · obtain ⟨l', h1, h2⟩ := ih n.next hrest a h
      exact ⟨l', h1, by simp only [List.length_cons]; omega⟩

theorem stationList_head_not_in_tail (mem : Memory) (a : Ptr) (node : PianoStation_t)
    (rest : List (Ptr × PianoStation_t)) (p : Ptr)
    (hl : IsStationList mem p ((a, node) :: rest)) : a ∉ rest.map Prod.fst := by
  intro hin
  have hl' := hl
  simp only [IsStationList] at hl'
  obtain ⟨hp, _, _, hrest⟩ := hl'
  subst hp
  obtain ⟨l', h1, h2⟩ := stationList_from_member mem rest node.next hrest p hin
  have := stationList_unique mem l' _ p h1 hl
  rw [this] at h2
  simp only [List.length_cons] at h2
  omega

theorem stationList_setStation_other (mem : Memory) (a : Ptr) (v : Option PianoStation_t)
    (l : List (Ptr × PianoStation_t)) :
    ∀ (p : Ptr), IsStationList mem p l → a ∉ l.map Prod.fst →
      IsStationList (mem.setStation a v) p l := by
  induction l with
  | nil => intro p hl _; simpa [IsStationList] using hl
  | cons e rest ih =>
    intro p hl hn
    obtain ⟨b, n⟩ := e
    simp only [IsStationList] at hl ⊢
    simp only [List.map_cons, List.mem_cons, not_or] at hn
    obtain ⟨hp, hb, hm, hrest⟩ := hl
    refine ⟨hp, hb, ?_, ih n.next hrest hn.2⟩
    simp only [Memory.setStation]
    rw [Function.update_noteq (fun h => hn.1 h.symm)]
    exact hm

theorem PianoDestroyStations_loop_ok (l : List (Ptr × PianoStation_t)) :
    ∀ (fuel : Nat) (mem : Memory) (curStation : Ptr),
      IsStationList mem curStation l → l.length < fuel →
      ∃ mem', PianoDestroyStations.loop fuel mem curStation = .ok mem' ∧
        (∀ a ∈ l.map Prod.fst, mem'.stations a = none) ∧
        (∀ p, p ∉ l.map Prod.fst → mem'.stations p = mem.stations p) ∧
        mem'.songs = mem.songs ∧ mem'.artists = mem.artists := by
  induction l with
  | nil =>
    intro fuel mem cur hl hf
    cases fuel with
    | zero => omega
    | succ fuel =>
      simp only [IsStationList] at hl
      exact ⟨mem, by simp [PianoDestroyStations.loop, hl], by simp, fun _ _ => rfl, rfl, rfl⟩
  | cons e rest ih =>
    intro fuel mem cur hl hf
    obtain ⟨a, node⟩ := e
    have hnot := stationList_head_not_in_tail mem a node rest cur hl
    cases fuel with
    | zero => simp at hf
    | succ fuel =>
      simp only [IsStationList] at hl
      obtain ⟨hp, ha, hmem, hrest⟩ := hl
      subst hp
      simp only [List.length_cons, Nat.succ_lt_succ_iff] at hf
      have hrest' : IsStationList
          ((mem.setStation cur (some { node with name := none, id := none })).setStation
            cur none) node.next rest :=
        stationList_setStation_other _ cur none rest _
          (stationList_setStation_other mem cur _ rest _ hrest hnot) hnot
      obtain ⟨mem', hrun, hfreed, hkept, hsongs, hartists⟩ := ih fuel _ node.next hrest' hf
      refine ⟨mem', ?_, ?_, ?_, ?_, ?_⟩
      · simp only [PianoDestroyStations.loop, ha, if_false, Memory.station, hmem, bind,
          Except.bind, PianoDestroyStation, pure, Except.pure, Memory.freeStation,
          Memory.setStation, Function.update_same]
        exact hrun
      · intro b hb
        simp only [List.map_cons, List.mem_cons] at hb
        rcases hb with h | h
        · subst h
          rw [hkept b hnot]
          simp [Memory.setStation]
        · exact hfreed b h
      · intro p hp
        simp only [List.map_cons, List.mem_cons, not_or] at hp
        rw [hkept p hp.2]
        simp [Memory.setStation, Function.update_noteq hp.1]
      · rw [hsongs]; rfl
      · rw [hartists]; rfl

/-- Companion to C7: on every station list `PianoDestroyStations` returns with
the head reset to `NULL`, every node of the list released and every other
block as before. -/
theorem PianoDestroyStations_resets_head (fuel : Nat) (s : State)
    (l : List (Ptr × PianoStation_t))
    (hl : IsStationList s.mem s.ph.stations l) (hf : l.length < fuel) :
    ∃ s', PianoDestroyStations fuel s = .ok s' ∧ s'.ph.stations = 0 ∧
      (∀ a ∈ l.map Prod.fst, s'.mem.stations a = none) ∧
      (∀ p, p ∉ l.map Prod.fst → s'.mem.stations p = s.mem.stations p) ∧
      s'.mem.songs = s.mem.songs ∧ s'.ph.playlist = s.ph.playlist := by
  obtain ⟨mem', hrun, hfreed, hkept, hsongs, _⟩ :=
    PianoDestroyStations_loop_ok l fuel s.mem s.ph.stations hl hf
  refine ⟨{ s with mem := mem', ph := { s.ph with stations := 0 } }, ?_, rfl, hfreed, hkept,
    hsongs, rfl⟩
  simp only [PianoDestroyStations, hrun, bind, Except.bind, pure, Except.pure]

theorem songList_unique (mem : Memory) (l1 : List (Ptr × PianoSong_t)) :
    ∀ (l2 : List (Ptr × PianoSong_t)) (p : Ptr),
      IsSongList mem p l1 → IsSongList mem p l2 → l1 = l2 := by
  induction l1 with
  | nil =>
    intro l2 p h1 h2
    cases l2 with
    | nil => rfl
    | cons e r =>
      obtain ⟨b, m⟩ := e
      simp only [IsSongList] at h1 h2
      exact absurd (h2.1.symm.trans h1) h2.2.1
  | cons e r1 ih =>
    intro l2 p h1 h2
    obtain ⟨a, n⟩ := e
    cases l2 with
    | nil =>
      simp only [IsSongList] at h1 h2
      exact absurd (h1.1.symm.trans h2) h1.2.1
    | cons e2 r2 =>
      obtain ⟨b, m⟩ := e2
      simp only [IsSongList] at h1 h2
      obtain ⟨hp1, _, hm1, hr1⟩ := h1
      obtain ⟨hp2, _, hm2, hr2⟩ := h2
      have hab : a = b := hp1.symm.trans hp2
      subst hab
      have hnm : n = m := Option.some.inj (hm1.symm.trans hm2)
      subst hnm
      rw [ih r2 n.next hr1 hr2]

theorem songList_from_member (mem : Memory) (l : List (Ptr × PianoSong_t)) :
    ∀ (p : Ptr), IsSongList mem p l → ∀ a ∈ l.map Prod.fst,
      ∃ l', IsSongList mem a l' ∧ l'.length ≤ l.length := by
  induction l with
  | nil => intro p _ a ha; simp at ha
  | cons e rest ih =>
    intro p hl a ha
    obtain ⟨b, n⟩ := e
    have hl' := hl
    simp only [IsSongList] at hl'
    obtain ⟨hp, _, _, hrest⟩ := hl'
    simp only [List.map_cons, List.mem_cons] at ha
    rcases ha with h | h
    · subst h
      subst hp
      exact ⟨_, hl, le_refl _⟩
    · obtain ⟨l', h1, h2⟩ := ih n.next hrest a h
      exact ⟨l', h1, by simp only [List.length_cons]; omega⟩

theorem songList_head_not_in_tail (mem : Memory) (a : Ptr) (node : PianoSong_t)
    (rest : List (Ptr × PianoSong_t)) (p : Ptr)
    (hl : IsSongList mem p ((a, node) :: rest)) : a ∉ rest.map Prod.fst := by
  intro hin
  have hl' := hl
  simp only [IsSongList] at hl'
  obtain ⟨hp, _, _, hrest⟩ := hl'
  subst hp
  obtain ⟨l', h1, h2⟩ := songList_from_member mem rest node.next hrest p hin
  have := songList_unique mem l' _ p h1 hl
  rw [this] at h2
  simp only [List.length_cons] at h2
  omega

theorem songList_setSong_other (mem : Memory) (a : Ptr) (v : Option PianoSong_t)
    (l : List (Ptr × PianoSong_t)) :
    ∀ (p : Ptr), IsSongList mem p l → a ∉ l.map Prod.fst →
      IsSongList (mem.setSong a v) p l := by
  induction l with
  | nil => intro p hl _; simpa [IsSongList] using hl
  | cons e rest ih =>
    intro p hl hn
    obtain ⟨b, n⟩ := e
    simp only [IsSongList] at hl ⊢
    simp only [List.map_cons, List.mem_cons, not_or] at hn
    obtain ⟨hp, hb, hm, hrest⟩ := hl
    refine ⟨hp, hb, ?_, ih n.next hrest hn.2⟩
    simp only [Memory.setSong]
    rw [Function.update_noteq (fun h => hn.1 h.symm)]
    exact hm

theorem PianoDestroyPlaylist_loop_ok (l : List (Ptr × PianoSong_t)) :
    ∀ (fuel : Nat) (mem : Memory) (curSong : Ptr),
      IsSongList mem curSong l → l.length < fuel →
      ∃ mem', PianoDestroyPlaylist.loop fuel mem curSong = .ok mem' ∧
        (∀ a ∈ l.map Prod.fst, mem'.songs a = none) ∧
        (∀ p, p ∉ l.map Prod.fst → mem'.songs p = mem.songs p) ∧
        mem'.stations = mem.stations ∧ mem'.artists = mem.artists := by
  induction l with
  | nil =>
    intro fuel mem cur hl hf
    cases fuel with
    | zero => omega
    | succ fuel =>
      simp only [IsSongList] at hl
      exact ⟨mem, by simp [PianoDestroyPlaylist.loop, hl], by simp, fun _ _ => rfl, rfl, rfl⟩
  | cons e rest ih =>
    intro fuel mem cur hl hf
    obtain ⟨a, node⟩ := e
    have hnot := songList_head_not_in_tail mem a node rest cur hl
    cases fuel with
    | zero => simp at hf
    | succ fuel =>
      simp only [IsSongList] at hl
      obtain ⟨hp, ha, hmem, hrest⟩ := hl
      subst hp
      simp only [List.length_cons, Nat.succ_lt_succ_iff] at hf
      have hrest' : ∀ v1 v2 : Option PianoSong_t, IsSongList
          (((mem.setSong cur v1).setSong cur v2).setSong cur none) node.next rest :=
        fun v1 v2 => songList_setSong_other _ cur none rest _
          (songList_setSong_other _ cur v2 rest _
            (songList_setSong_other mem cur v1 rest _ hrest hnot) hnot) hnot
      obtain ⟨mem', hrun, hfreed, hkept, hstations, hartists⟩ :=
        ih fuel _ node.next (hrest' _ _) hf
      refine ⟨mem', ?_, ?_, ?_, ?_, ?_⟩
      · simp only [PianoDestroyPlaylist.loop, ha, if_false, Memory.song, hmem, bind,
          Except.bind, pure, Except.pure, Memory.freeSong, Memory.setSong,
          Function.update_same]
        exact hrun
      · intro b hb
        simp only [List.map_cons, List.mem_cons] at hb
        rcases hb with h | h
        · subst h
          rw [hkept b hnot]
          simp [Memory.setSong]
        · exact hfreed b h
      · intro p hp
        simp only [List.map_cons, List.mem_cons, not_or] at hp
        rw [hkept p hp.2]
        simp [Memory.setSong, Function.update_noteq hp.1]
      · rw [hstations]; rfl
      · rw [hartists]; rfl

/-- Companion to C7: on every playlist `PianoDestroyPlaylist` returns with the
head reset to `NULL`, every node of the list released and every other block as
before. -/
theorem PianoDestroyPlaylist_resets_head (fuel : Nat) (s : State)
    (l : List (Ptr × PianoSong_t))
    (hl : IsSongList s.mem s.ph.playlist l) (hf : l.length < fuel) :
    ∃ s', PianoDestroyPlaylist fuel s = .ok s' ∧ s'.ph.playlist = 0 ∧
      (∀ a ∈ l.map Prod.fst, s'.mem.songs a = none) ∧
      (∀ p, p ∉ l.map Prod.fst → s'.mem.songs p = s.mem.songs p) ∧
      s'.mem.stations = s.mem.stations ∧ s'.ph.stations = s.ph.stations := by
  obtain ⟨mem', hrun, hfreed, hkept, hstations, _⟩ :=
    PianoDestroyPlaylist_loop_ok l fuel s.mem s.ph.playlist hl hf
  refine ⟨{ s with mem := mem', ph := { s.ph with playlist := 0 } }, ?_, rfl, hfreed, hkept,
    hstations, rfl⟩
  simp only [PianoDestroyPlaylist, hrun, bind, Except.bind, pure, Except.pure]

/-! ## Claims on the wire shape -/

theorem xmlEntity_length (c : Char) : 1 ≤ (xmlEntity c).length := by
  unfold xmlEntity
  split_ifs <;> simp

theorem xmlEscape_length (s : String) : s.length ≤ (xmlEscape s).length := by
  have key : ∀ l : List Char,
      l.length ≤ (l.foldr (fun c acc => xmlEntity c ++ acc) []).length := by
    intro l
    induction l with
    | nil => simp
    | cons c rest ih =>
      have := xmlEntity_length c
      simp only [List.foldr_cons, List.length_append, List.length_cons]
      omega
  exact key s.data

theorem string_length_mk (l : List Char) : (String.mk l).length = l.length :=
  rfl

theorem overlongSearch_length : overlongSearch.length = 10000 := by
  rw [overlongSearch, string_length_mk, List.length_replicate]

theorem mirrorBody_length_ge (env : Env) (method : String) (now : Nat) (authToken : String)
    (f : Field) (s : String) (hv : f.value = .str s) :
    min s.length (env.PianoXmlEncodeString s).length ≤
      (mirrorBody env method now authToken [f]).length := by
  simp only [mirrorBody, encode_request, List.map, String.join, List.foldl, Field.xml, hv,
    XmlRpcValue.encode, String.length_append]
  cases f.escaped <;> simp <;> omega

theorem fields_of_single_value (fields : List Field) (v : Value)
    (hv : fields.map Field.value = [v]) : ∃ f : Field, fields = [f] ∧ f.value = v := by
  match fields, hv with
  | [f], hv => exact ⟨f, rfl, by simpa using hv⟩

theorem searchMusic_long_is_not_mirrored (searchStr : String)
    (hlong : 10000 ≤ searchStr.length) :
    ¬ MirrorsExactly fixtureEnv 1222222222 fixtureHandle "A" "L" "music.search" "search"
        [.str searchStr]
        (PianoSearchMusic.request fixtureEnv 1222222222 fixtureHandle searchStr) := by
  rintro ⟨fields, hv, hs⟩
  obtain ⟨f, rfl, hf⟩ := fields_of_single_value fields _ hv
  have h1 := (searchMusic_sends fixtureEnv 1222222222 fixtureHandle searchStr "A" "L"
    rfl rfl).1
  unfold SendsExactly at hs
  have h2 := h1.symm.trans hs
  have hx : (snprintf 10000 (mirrorBody fixtureEnv "music.search" 1222222222 "A"
      [⟨.str searchStr, true⟩])).length =
      (mirrorBody fixtureEnv "music.search" 1222222222 "A" [f]).length :=
    congrArg (fun r => r.1.length) (Except.ok.inj h2)
  have hlt := snprintf_length_lt 10000
    (mirrorBody fixtureEnv "music.search" 1222222222 "A" [⟨.str searchStr, true⟩])
    (by decide)
  have hge := mirrorBody_length_ge fixtureEnv "music.search" 1222222222 "A" f
    searchStr hf
  have hesc : searchStr.length ≤ (fixtureEnv.PianoXmlEncodeString searchStr).length :=
    xmlEscape_length searchStr
  omega

/-- C9 (the claim fails as stated): a search string of 10000 bytes.  The XML
document does not fit `xmlSendBuf`, which keeps 9999 bytes of it, so the request
is not the exact mirror pair of any field list that carries the search
string. -/
theorem searchMusic_overlong_is_not_mirrored :
    ¬ MirrorsExactly fixtureEnv 1222222222 fixtureHandle "A" "L" "music.search" "search"
        [.str overlongSearch]
        (PianoSearchMusic.request fixtureEnv 1222222222 fixtureHandle overlongSearch) :=
  searchMusic_long_is_not_mirrored overlongSearch (Nat.le_of_eq overlongSearch_length.symm)


theorem mirrors_of_sends {env : Env} {now : Nat} {ph : PianoHandle_t}
    {authToken listenerId xmlMethod urlMethod : String} {fields : List Field}
    {req : Except Fault (String × String)}
    (h : Sends env now ph authToken listenerId xmlMethod urlMethod fields req) :
    Mirrors env now ph authToken listenerId xmlMethod urlMethod
      (fields.map Field.value) req :=
  ⟨fields, rfl, h⟩

/-- C9 (amended): in every operation that sends arguments, both buffers are
written from one ordered field list: the XML-RPC document carries the
timestamp, the auth token and then the fields, the query string carries the
same fields as `arg1` ... `argN`, with the same logical values in the same
order (a flag is `1`/`0` in the body and `true`/`false` in the query, a
constant is the same constant).  Each document is cut to its buffer, 9999 bytes
of XML and `PIANO_URL_BUFFER_SIZE - 1` bytes of URL; when both fit, the request
is exactly that mirror pair. -/
theorem requests_mirror_parameters (env : Env) (now : Nat) (ph : PianoHandle_t)
    (station : PianoStation_t) (song : PianoSong_t) (rating : PianoSongRating_t)
    (playlistStationId newName searchStr newMusicId : String)
    (authToken listenerId stationId musicId matchingSeed userSeed : String)
    (hauth : ph.user.authToken = some authToken) (hlid : ph.user.listenerId = some listenerId)
    (hsid : station.id = some stationId) (hmid : song.musicId = some musicId)
    (hms : song.matchingSeed = some matchingSeed) (hus : song.userSeed = some userSeed) :
    Mirrors env now ph authToken listenerId "playlist.getFragment" "getFragment"
      [.str playlistStationId, .str "15941546", .str "181840822", .str "", .str "",
       .str "aacplus"]
      (PianoGetPlaylist.request env now ph playlistStationId) ∧
    Mirrors env now ph authToken listenerId "station.addFeedback" "addFeedback"
      [.str stationId, .str musicId, .str matchingSeed, .str userSeed,
       .str (song.focusTraitId.getD ""), .bool (decide (rating = .PIANO_RATE_LOVE)),
       .bool false]
      (PianoRateTrack.request env now ph station song rating) ∧
    Mirrors env now ph authToken listenerId "station.setStationName" "setStationName"
      [.str stationId, .str newName]
      (PianoRenameStation.request env now ph station newName) ∧
    Mirrors env now ph authToken listenerId "station.removeStation" "removeStation"
      [.str stationId]
      (PianoDeleteStation.request env now ph station) ∧
    Mirrors env now ph authToken listenerId "music.search" "search"
      [.str searchStr]
      (PianoSearchMusic.request env now ph searchStr) ∧
    Mirrors env now ph authToken listenerId "station.createStation" "createStation"
      [.str ("mi" ++ newMusicId)]
      (PianoCreateStation.request env now ph newMusicId) ∧
    Mirrors env now ph authToken listenerId "station.addSeed" "addSeed"
      [.str stationId, .str newMusicId]
      (PianoStationAddMusic.request env now ph station newMusicId) :=
  ⟨mirrors_of_sends
      (getPlaylist_sends env now ph authToken listenerId playlistStationId hauth hlid),
   mirrors_of_sends
      (rateTrack_sends env now ph station song rating authToken listenerId stationId
        musicId matchingSeed userSeed hauth hlid hsid hmid hms hus),
   mirrors_of_sends
      (renameStation_sends env now ph station newName authToken listenerId stationId
        hauth hlid hsid),
   mirrors_of_sends
      (deleteStation_sends env now ph station authToken listenerId stationId hauth hlid hsid),
   mirrors_of_sends
      (searchMusic_sends env now ph searchStr authToken listenerId hauth hlid),
   mirrors_of_sends
      (createStation_sends env now ph newMusicId authToken listenerId hauth hlid),
   mirrors_of_sends
      (addMusic_sends env now ph station newMusicId authToken listenerId stationId
        hauth hlid hsid)⟩

/-- C10 (the claim fails as stated): adding the music id `R&B` to station `S1`
of the fixture.  The request is not the one whose station id and music id are
escaped: the body carries `R&B`, not `R&amp;B`, and the query `arg2=R&B`, not
`arg2=R%26B`. -/
theorem addMusic_ids_are_not_escaped :
    ¬ Sends fixtureEnv 1222222222 fixtureHandle "A" "L" "station.addSeed" "addSeed"
        [⟨.str "S1", true⟩, ⟨.str "R&B", true⟩]
        (PianoStationAddMusic.request fixtureEnv 1222222222 fixtureHandle
          (fixtureStation "Rock" "S1" 2) "R&B") := by
  intro h
  have h2 := congrArg (fun r => r.toOption.map fun q => (q.1.length, q.2.length)) h.1
  revert h2
  decide

/-- C10 (amended): in the mutating operations the fields that are escaped are
the free text the caller types, the new station name of `PianoRenameStation` and
the search string of `PianoSearchMusic`: `PianoXmlEncodeString` of it goes into
the XML-RPC body and `curl_easy_escape` of it into the query string.  Station
ids, music ids, seeds and the focus trait id are placed in both as they are
(each document within its fixed-size buffer). -/
theorem mutating_requests_escape_free_text_only (env : Env) (now : Nat) (ph : PianoHandle_t)
    (station : PianoStation_t) (song : PianoSong_t) (rating : PianoSongRating_t)
    (newName searchStr newMusicId : String)
    (authToken listenerId stationId musicId matchingSeed userSeed : String)
    (hauth : ph.user.authToken = some authToken) (hlid : ph.user.listenerId = some listenerId)
    (hsid : station.id = some stationId) (hmid : song.musicId = some musicId)
    (hms : song.matchingSeed = some matchingSeed) (hus : song.userSeed = some userSeed) :
    Sends env now ph authToken listenerId "station.addFeedback" "addFeedback"
      [⟨.str stationId, false⟩, ⟨.str musicId, false⟩, ⟨.str matchingSeed, false⟩,
       ⟨.str userSeed, false⟩, ⟨.str (song.focusTraitId.getD ""), false⟩,
       ⟨.bool (decide (rating = .PIANO_RATE_LOVE)), false⟩, ⟨.bool false, false⟩]
      (PianoRateTrack.request env now ph station song rating) ∧
    Sends env now ph authToken listenerId "station.setStationName" "setStationName"
      [⟨.str stationId, false⟩, ⟨.str newName, true⟩]
      (PianoRenameStation.request env now ph station newName) ∧
    Sends env now ph authToken listenerId "station.removeStation" "removeStation"
      [⟨.str stationId, false⟩]
      (PianoDeleteStation.request env now ph station) ∧
    Sends env now ph authToken listenerId "station.addSeed" "addSeed"
      [⟨.str stationId, false⟩, ⟨.str newMusicId, false⟩]
      (PianoStationAddMusic.request env now ph station newMusicId) ∧
    Sends env now ph authToken listenerId "station.createStation" "createStation"
      [⟨.str ("mi" ++ newMusicId), false⟩]
      (PianoCreateStation.request env now ph newMusicId) ∧
    Sends env now ph authToken listenerId "music.search" "search"
      [⟨.str searchStr, true⟩]
      (PianoSearchMusic.request env now ph searchStr) :=
  ⟨rateTrack_sends env now ph station song rating authToken listenerId stationId
      musicId matchingSeed userSeed hauth hlid hsid hmid hms hus,
   renameStation_sends env now ph station newName authToken listenerId stationId
      hauth hlid hsid,
   deleteStation_sends env now ph station authToken listenerId stationId hauth hlid hsid,
   addMusic_sends env now ph station newMusicId authToken listenerId stationId
      hauth hlid hsid,
   createStation_sends env now ph newMusicId authToken listenerId hauth hlid,
   searchMusic_sends env now ph searchStr authToken listenerId hauth hlid⟩


/-- C9 (amended) at the fixture. -/
theorem requests_mirror_parameters_witness :
    Mirrors fixtureEnv 1222222222 fixtureHandle "A" "L" "playlist.getFragment" "getFragment"
      [.str "S1", .str "15941546", .str "181840822", .str "", .str "", .str "aacplus"]
      (PianoGetPlaylist.request fixtureEnv 1222222222 fixtureHandle "S1") ∧
    Mirrors fixtureEnv 1222222222 fixtureHandle "A" "L" "station.addFeedback" "addFeedback"
      [.str "S1", .str "T1", .str "M", .str "U",
       .str ((fixtureSong "First" "T1" .PIANO_RATE_LOVE 12).focusTraitId.getD ""),
       .bool (decide (PianoSongRating_t.PIANO_RATE_BAN = .PIANO_RATE_LOVE)), .bool false]
      (PianoRateTrack.request fixtureEnv 1222222222 fixtureHandle
        (fixtureStation "Rock" "S1" 2) (fixtureSong "First" "T1" .PIANO_RATE_LOVE 12)
        .PIANO_RATE_BAN) ∧
    Mirrors fixtureEnv 1222222222 fixtureHandle "A" "L" "station.setStationName"
      "setStationName" [.str "S1", .str "Blues & Soul"]
      (PianoRenameStation.request fixtureEnv 1222222222 fixtureHandle
        (fixtureStation "Rock" "S1" 2) "Blues & Soul") ∧
    Mirrors fixtureEnv 1222222222 fixtureHandle "A" "L" "station.removeStation" "removeStation"
      [.str "S1"]
      (PianoDeleteStation.request fixtureEnv 1222222222 fixtureHandle
        (fixtureStation "Rock" "S1" 2)) ∧
    Mirrors fixtureEnv 1222222222 fixtureHandle "A" "L" "music.search" "search"
      [.str "rock & roll"]
      (PianoSearchMusic.request fixtureEnv 1222222222 fixtureHandle "rock & roll") ∧
    Mirrors fixtureEnv 1222222222 fixtureHandle "A" "L" "station.createStation" "createStation"
      [.str ("mi" ++ "R1")]
      (PianoCreateStation.request fixtureEnv 1222222222 fixtureHandle "R1") ∧
    Mirrors fixtureEnv 1222222222 fixtureHandle "A" "L" "station.addSeed" "addSeed"
      [.str "S1", .str "R1"]
      (PianoStationAddMusic.request fixtureEnv 1222222222 fixtureHandle
        (fixtureStation "Rock" "S1" 2) "R1") :=
  requests_mirror_parameters fixtureEnv 1222222222 fixtureHandle (fixtureStation "Rock" "S1" 2)
    (fixtureSong "First" "T1" .PIANO_RATE_LOVE 12) .PIANO_RATE_BAN "S1" "Blues & Soul"
    "rock & roll" "R1" "A" "L" "S1" "T1" "M" "U" rfl rfl rfl rfl rfl rfl

/-- C10 (amended) at the fixture. -/
theorem mutating_requests_escape_free_text_only_witness :
    Sends fixtureEnv 1222222222 fixtureHandle "A" "L" "station.addFeedback" "addFeedback"
      [⟨.str "S1", false⟩, ⟨.str "T1", false⟩, ⟨.str "M", false⟩, ⟨.str "U", false⟩,
       ⟨.str ((fixtureSong "First" "T1" .PIANO_RATE_LOVE 12).focusTraitId.getD ""), false⟩,
       ⟨.bool (decide (PianoSongRating_t.PIANO_RATE_BAN = .PIANO_RATE_LOVE)), false⟩,
       ⟨.bool false, false⟩]
      (PianoRateTrack.request fixtureEnv 1222222222 fixtureHandle
        (fixtureStation "Rock" "S1" 2) (fixtureSong "First" "T1" .PIANO_RATE_LOVE 12)
        .PIANO_RATE_BAN) ∧
    Sends fixtureEnv 1222222222 fixtureHandle "A" "L" "station.setStationName" "setStationName"
      [⟨.str "S1", false⟩, ⟨.str "Blues & Soul", true⟩]
      (PianoRenameStation.request fixtureEnv 1222222222 fixtureHandle
        (fixtureStation "Rock" "S1" 2) "Blues & Soul") ∧
    Sends fixtureEnv 1222222222 fixtureHandle "A" "L" "station.removeStation" "removeStation"
      [⟨.str "S1", false⟩]
      (PianoDeleteStation.request fixtureEnv 1222222222 fixtureHandle
        (fixtureStation "Rock" "S1" 2)) ∧
    Sends fixtureEnv 1222222222 fixtureHandle "A" "L" "station.addSeed" "addSeed"
      [⟨.str "S1", false⟩, ⟨.str "R&B", false⟩]
      (PianoStationAddMusic.request fixtureEnv 1222222222 fixtureHandle
        (fixtureStation "Rock" "S1" 2) "R&B") ∧
    Sends fixtureEnv 1222222222 fixtureHandle "A" "L" "station.createStation" "createStation"
      [⟨.str ("mi" ++ "R&B"), false⟩]
      (PianoCreateStation.request fixtureEnv 1222222222 fixtureHandle "R&B") ∧
    Sends fixtureEnv 1222222222 fixtureHandle "A" "L" "music.search" "search"
      [⟨.str "rock & roll", true⟩]
      (PianoSearchMusic.request fixtureEnv 1222222222 fixtureHandle "rock & roll") :=
  mutating_requests_escape_free_text_only fixtureEnv 1222222222 fixtureHandle
    (fixtureStation "Rock" "S1" 2) (fixtureSong "First" "T1" .PIANO_RATE_LOVE 12)
    .PIANO_RATE_BAN "Blues & Soul" "rock & roll" "R&B" "A" "L" "S1" "T1" "M" "U"
    rfl rfl rfl rfl rfl rfl

end Piano
